import Mathlib

/-!
Verification of the PdmVPages reporting scripts.

This file gives a shallow embedding, in Lean 4, of the data model and the
operations of the PdmVPages repository (a collection of Python batch
reporting scripts), and proves or refutes a fixed list of claims about
them.  Every definition is translated from the Python source; external
collaborators (the DAS command line client, the Stats2 service, the
ReqMgr2 API) are modelled as explicit oracle parameters, and Python
dictionaries used as caches are modelled as association lists threaded
through the functions in state passing style.  Fallible code (Python
exceptions) is modelled with Except.
-/

namespace PdmVPages

/-! ## Python primitives shared by several scripts -/

/-- Kinds of Python exceptions raised by the embedded code. -/
inductive PyErr where
  | typeError
  | valueError
  | keyError
deriving DecidableEq, Repr

/-- Python `sorted` on a list of integers, as in `sorted(list(runs))`. -/
def pySorted (l : List Int) : List Int := l.mergeSort (fun a b => decide (a ≤ b))

/-- Python `json.dumps` of a list of integers: elements separated by `, `
inside square brackets. -/
def jsonDumpsIntList (l : List Int) : String :=
  "[" ++ String.intercalate ", " (l.map toString) ++ "]"

/-- A Python dict used as a cache, keyed by strings.  Lookup returns the
most recent binding, assignment shadows the previous one, exactly like a
dict as far as `in`, lookup and assignment are concerned. -/
abbrev Cache (β : Type) := List (String × β)

/-- Dict lookup, `cache[key]` guarded by `key in cache`. -/
def cacheGet {β : Type} (c : Cache β) (k : String) : Option β :=
  (c.find? (fun p => p.1 == k)).map Prod.snd

/-- Dict assignment, `cache[key] = value`. -/
def cacheSet {β : Type} (c : Cache β) (k : String) (v : β) : Cache β :=
  (k, v) :: c

instance exceptDecEq {ε α : Type} [DecidableEq ε] [DecidableEq α] :
    DecidableEq (Except ε α) := fun x y =>
  match x, y with
  | .ok a, .ok b =>
    if h : a = b then isTrue (by rw [h]) else isFalse (by intro hc; cases hc; exact h rfl)
  | .error a, .error b =>
    if h : a = b then isTrue (by rw [h]) else isFalse (by intro hc; cases hc; exact h rfl)
  | .ok _, .error _ => isFalse (by intro hc; cases hc)
  | .error _, .ok _ => isFalse (by intro hc; cases hc)

/-- Yield fixed size chunks of a given list: `chunkify` from
run_3_data/make_json.py (lines 87-95) and rereco_ul/make_json.py
(lines 62-70).  The chunk size is clamped to at least 1. -/
def chunkify (items : List α) (chunk_size : Nat) : List (List α) :=
  let n := max chunk_size 1
  match items with
  | [] => []
  | x :: xs => ((x :: xs).take n) :: chunkify ((x :: xs).drop n) chunk_size
termination_by items.length
decreasing_by simp

/-! ## Run-set difference accounting
(rereco_ul/make_json_original_table.py lines 105-111 and
rereco_ul_run3/make_json_original_table.py lines 78-84)

Each results row of the original-table scripts contains two triples of
integer fields computed from run sets with Python set difference and
`len`.  The triples are embedded as a small structure; run sets are
Finsets of integers. -/

structure RunDiffFields where
  missing_runs : Nat
  surplus_runs : Nat
  runs_diff : Nat
deriving DecidableEq, Repr

/-- Fields `twiki_and_whitelist_missing_runs`, `_surplus_runs` and
`_runs_diff` of a results row, rereco_ul/make_json_original_table.py
lines 105-107. -/
def twiki_and_whitelist_fields (twiki_runs whitelist_runs : Finset Int) : RunDiffFields :=
  { missing_runs := (whitelist_runs \ twiki_runs).card
    surplus_runs := (twiki_runs \ whitelist_runs).card
    runs_diff := (whitelist_runs \ twiki_runs).card + (twiki_runs \ whitelist_runs).card }

/-- Fields `whitelist_and_raw_x_dcs_missing_runs`, `_surplus_runs` and
`whitelist_and_raw_x_dcs_runs` of a results row,
rereco_ul/make_json_original_table.py lines 109-111. -/
def whitelist_and_raw_x_dcs_fields (whitelist_runs raw_x_dcs_runs : Finset Int) : RunDiffFields :=
  { missing_runs := (raw_x_dcs_runs \ whitelist_runs).card
    surplus_runs := (whitelist_runs \ raw_x_dcs_runs).card
    runs_diff := (raw_x_dcs_runs \ whitelist_runs).card + (whitelist_runs \ raw_x_dcs_runs).card }

/-- Fields `twiki_and_whitelist_x_raw_missing_runs`, `_surplus_runs` and
`_runs_diff` of a results row, rereco_ul_run3/make_json_original_table.py
lines 78-80. -/
def twiki_and_whitelist_x_raw_fields (twiki_runs whitelist_x_raw_runs : Finset Int) : RunDiffFields :=
  { missing_runs := (whitelist_x_raw_runs \ twiki_runs).card
    surplus_runs := (twiki_runs \ whitelist_x_raw_runs).card
    runs_diff := (whitelist_x_raw_runs \ twiki_runs).card + (twiki_runs \ whitelist_x_raw_runs).card }

/-- Fields `whitelist_x_raw_and_raw_x_dcs_missing_runs`, `_surplus_runs`
and `whitelist_x_raw_and_raw_x_dcs_runs` of a results row,
rereco_ul_run3/make_json_original_table.py lines 82-84. -/
def whitelist_x_raw_and_raw_x_dcs_fields (whitelist_x_raw_runs raw_x_dcs_runs : Finset Int) :
    RunDiffFields :=
  { missing_runs := (raw_x_dcs_runs \ whitelist_x_raw_runs).card
    surplus_runs := (whitelist_x_raw_runs \ raw_x_dcs_runs).card
    runs_diff := (raw_x_dcs_runs \ whitelist_x_raw_runs).card + (whitelist_x_raw_runs \ raw_x_dcs_runs).card }

/-! ## Which files each reporting script writes
(transferor_stuckor/main.py lines 130-136, main_bkg_ul/main.py
lines 95-101, run_3_data/make_json.py lines 653-659,
rereco_ul/make_json.py lines 418-419,
rereco_ul/make_json_full_table.py lines 66-70,
rereco_ul/make_json_original_table.py lines 145-149,
rereco_ul_run3/make_json_original_table.py lines 117-121)

Each reporting script ends with a fixed straight line sequence of file
writes (`json.dump` for the JSON report, a `time.strftime` string for the
timestamp file).  The write sequences are embedded literally. -/

inductive ReportKind where
  | json
  | timestamp
deriving DecidableEq, Repr

structure FileWrite where
  path : String
  kind : ReportKind
deriving DecidableEq, Repr

structure Script where
  name : String
  writes : List FileWrite
deriving DecidableEq, Repr

/-- transferor_stuckor/main.py lines 130-136: data.json then
update_timestamp.txt. -/
def transferor_stuckor_main : Script :=
  ⟨"transferor_stuckor/main.py",
   [⟨"data.json", .json⟩, ⟨"update_timestamp.txt", .timestamp⟩]⟩

/-- main_bkg_ul/main.py lines 95-101: data.json then update_timestamp.txt. -/
def main_bkg_ul_main : Script :=
  ⟨"main_bkg_ul/main.py",
   [⟨"data.json", .json⟩, ⟨"update_timestamp.txt", .timestamp⟩]⟩

/-- run_3_data/make_json.py lines 653-659: OUTPUT_FOLDER/data.json and
OUTPUT_FOLDER/data_subset.json; no timestamp file is written anywhere in
the script. -/
def run_3_data_make_json : Script :=
  ⟨"run_3_data/make_json.py",
   [⟨"output/data.json", .json⟩, ⟨"output/data_subset.json", .json⟩]⟩

/-- rereco_ul/make_json.py lines 418-419: data.json only; no timestamp
file is written anywhere in the script. -/
def rereco_ul_make_json : Script :=
  ⟨"rereco_ul/make_json.py", [⟨"data.json", .json⟩]⟩

/-- rereco_ul/make_json_full_table.py lines 66-70. -/
def rereco_ul_make_json_full_table : Script :=
  ⟨"rereco_ul/make_json_full_table.py",
   [⟨"data_full_table.json", .json⟩, ⟨"full_table_timestamp.txt", .timestamp⟩]⟩

/-- rereco_ul/make_json_original_table.py lines 145-149. -/
def rereco_ul_make_json_original_table : Script :=
  ⟨"rereco_ul/make_json_original_table.py",
   [⟨"data_original_table.json", .json⟩, ⟨"original_table_timestamp.txt", .timestamp⟩]⟩

/-- rereco_ul_run3/make_json_original_table.py lines 117-121. -/
def rereco_ul_run3_make_json_original_table : Script :=
  ⟨"rereco_ul_run3/make_json_original_table.py",
   [⟨"output/data_original_table.json", .json⟩, ⟨"output/original_table_timestamp.txt", .timestamp⟩]⟩

/-- All reporting scripts of the repository (the entry point scripts that
produce report files; run_3_data/test.py is a unit test runner and the
utils, schemas and connection_wrapper modules are libraries). -/
def repository_scripts : List Script :=
  [transferor_stuckor_main, main_bkg_ul_main, run_3_data_make_json,
   rereco_ul_make_json, rereco_ul_make_json_full_table,
   rereco_ul_make_json_original_table, rereco_ul_run3_make_json_original_table]

/-- Whether a script writes at least one JSON report file. -/
def writes_json_report (s : Script) : Bool :=
  s.writes.any (fun w => w.kind == ReportKind.json)

/-- Whether a script writes at least one timestamp file. -/
def writes_timestamp (s : Script) : Bool :=
  s.writes.any (fun w => w.kind == ReportKind.timestamp)

/-! ## Table flattening
(rereco_ul/make_json_full_table.py lines 5-13, `get_output_rows`)

A dataset tree item is a dict with an `output` list of child items; the
label stands for all the other (scalar) attributes of the dict.
`get_output_rows(item, path, rows)` appends `item` to `path` and either
appends the path to `rows` (when the item has no non-empty `output`
list; the `pop` of the `output` key only strips that key from the leaf
dict) or recurses into each child of `output` in order. -/

inductive TableItem where
  | mk (label : Nat) (output : List TableItem)

def TableItem.output : TableItem → List TableItem
  | .mk _ out => out

mutual

/-- get_output_rows from rereco_ul/make_json_full_table.py lines 5-13. -/
def get_output_rows : TableItem → List TableItem → List (List TableItem) → List (List TableItem)
  | item, path, rows =>
    let path' := path ++ [item]
    match item with
    | .mk _ out => if out.isEmpty then rows ++ [path'] else get_output_rows_list out path' rows

/-- The `for i in item.pop('output')` loop of get_output_rows. -/
def get_output_rows_list : List TableItem → List TableItem → List (List TableItem) → List (List TableItem)
  | [], _, rows => rows
  | i :: rest, path, rows => get_output_rows_list rest path (get_output_rows i path rows)

end

mutual

/-- NOT taken from the source.  Spec side definition, following the words
of the claim: the list of root-to-leaf paths of a tree, one per leaf, in
order. -/
def leafPaths : TableItem → List (List TableItem)
  | .mk l out =>
    if out.isEmpty then [[TableItem.mk l out]]
    else (leafPathsList out).map (fun p => TableItem.mk l out :: p)

/-- Spec side: root-to-leaf paths of a forest, concatenated in order. -/
def leafPathsList : List TableItem → List (List TableItem)
  | [] => []
  | i :: rest => leafPaths i ++ leafPathsList rest

end

mutual

/-- Spec side: number of leaves of a tree. -/
def leafCount : TableItem → Nat
  | .mk _ out => if out.isEmpty then 1 else leafCountList out

/-- Spec side: number of leaves of a forest. -/
def leafCountList : List TableItem → Nat
  | [] => 0
  | i :: rest => leafCount i + leafCountList rest

end

/-! ## DAS wrappers with module level caches
(run_3_data/make_json.py lines 98-148 and 194-210,
rereco_ul/make_json.py lines 73-117, run_3_data/utils/das.py lines 34-72)

The external dasgoclient calls are modelled as oracle functions carried in
a `DasWorld`; a value of `none` stands for a failed call (non zero exit,
unparsable output, any exception inside the `try` block).  The module
level dict caches are threaded explicitly, and each wrapper additionally
returns the number of external queries it issued. -/

structure DasWorld where
  /-- Oracle for `dasgoclient --query="dataset=D | grep dataset.nevents"`
  parsed with `int(...)`; `none` when the command fails or its output does
  not parse. -/
  eventsQuery : String → Option Int
  /-- Oracle for `dasgoclient --query="run dataset=D"` parsed into a list
  of integers (one per non blank line); `none` on failure. -/
  runsQuery : String → Option (List Int)
  /-- Oracle for `dasgoclient --query="file run in RUNS dataset=D |
  sum(file.nevents)"` on a dataset and the sorted run list, parsed with
  `int(float(...))`; `none` on failure. -/
  sumQuery : String → List Int → Option Int

/-- das_get_events from run_3_data/make_json.py lines 98-112 (the
rereco_ul/make_json.py lines 73-82 variant differs only in not catching
the exception).  Returns the result, the updated cache and the number of
external queries issued. -/
def das_get_events (w : DasWorld) (cache : Cache Int) (dataset : String) :
    Int × Cache Int × Nat :=
  if dataset = "" then (0, cache, 0)
  else
    match cacheGet cache dataset with
    | some v => (v, cache, 0)
    | none =>
      match w.eventsQuery dataset with
      | some r => (r, cacheSet cache dataset r, 1)
      | none => (0, cache, 1)

/-- das_get_runs from run_3_data/make_json.py lines 194-210.  On the
falsy dataset path the source returns an empty list, on the failure path
it returns the initial empty set; both are modelled as the empty list.
The cache is only written on success. -/
def das_get_runs (w : DasWorld) (cache : Cache (List Int)) (dataset : String) :
    List Int × Cache (List Int) × Nat :=
  if dataset = "" then ([], cache, 0)
  else
    match cacheGet cache dataset with
    | some v => (v, cache, 0)
    | none =>
      match w.runsQuery dataset with
      | some l => (l.dedup, cacheSet cache dataset l.dedup, 1)
      | none => ([], cache, 1)

/-- das_get_runs from run_3_data/utils/das.py lines 34-51: same queries
but no cache, and the result is returned as `list(result)`. -/
def das_get_runs_utils (w : DasWorld) (dataset : String) : List Int :=
  if dataset = "" then []
  else
    match w.runsQuery dataset with
    | some l => l.dedup
    | none => []

/-- das_get_events from run_3_data/utils/das.py lines 54-72: same query
as das_get_events but no cache. -/
def das_get_events_utils (w : DasWorld) (dataset : String) : Int :=
  if dataset = "" then 0
  else
    match w.eventsQuery dataset with
    | some r => r
    | none => 0

/-- The `runs` argument of das_get_events_of_runs: either a Python list
of run numbers (an iteration of a run set, in any order) or a dict whose
keys are run numbers.  The source turns a dict into `set(runs.keys())`
before sorting. -/
inductive PyRuns where
  | list (rs : List Int)
  | dict (keys : List Int)

/-- Python falsiness of the `runs` argument. -/
def PyRuns.isEmptyB : PyRuns → Bool
  | .list rs => rs.isEmpty
  | .dict ks => ks.isEmpty

/-- The set of runs an input denotes. -/
def PyRuns.denotedSet : PyRuns → Finset Int
  | .list rs => rs.toFinset
  | .dict ks => ks.toFinset

/-- An input is well formed when it has no duplicate entries: a Python
set iteration and the keys of a dict never repeat an element. -/
def PyRuns.wellFormed : PyRuns → Prop
  | .list rs => rs.Nodup
  | .dict ks => ks.Nodup

instance (r : PyRuns) : Decidable r.wellFormed := by
  cases r <;> simp only [PyRuns.wellFormed] <;> infer_instance

/-- The `runs = sorted(list(runs))` normalization of
das_get_events_of_runs (with `runs = set(runs.keys())` first when the
argument is a dict), run_3_data/make_json.py lines 119-122. -/
def PyRuns.normalize : PyRuns → List Int
  | .list rs => pySorted rs
  | .dict ks => pySorted ks.dedup

/-- The cache key of das_get_events_of_runs, run_3_data/make_json.py
line 123: sha256 of the dataset name and the JSON dump of the sorted run
list.  The sha256 digest is an external primitive and is abstracted as
the function parameter `h`. -/
def events_of_runs_key (h : String → String) (dataset : String) (runs : PyRuns) : String :=
  h (dataset ++ "___" ++ jsonDumpsIntList runs.normalize)

/-- das_get_events_of_runs with `try_to_chunkify=False`,
run_3_data/make_json.py lines 115-148: on a failed query it stores 0
under the key and returns 0 instead of recursing.  This is the form in
which the function calls itself on each chunk. -/
def das_get_events_of_runs_nochunk (h : String → String) (w : DasWorld) (cache : Cache Int)
    (dataset : String) (runs : List Int) : Int × Cache Int × Nat :=
  if dataset = "" || runs.isEmpty then (0, cache, 0)
  else
    let key := events_of_runs_key h dataset (.list runs)
    match cacheGet cache key with
    | some v => (v, cache, 0)
    | none =>
      match w.sumQuery dataset (pySorted runs) with
      | some ev => (ev, cacheSet cache key ev, 1)
      | none => (0, cacheSet cache key 0, 1)

/-- das_get_events_of_runs with the default `try_to_chunkify=True`,
run_3_data/make_json.py lines 115-148 (identical in
rereco_ul/make_json.py lines 85-117 up to the outer exception handler):
empty guard, dict normalization, cache lookup by sha256 key, external
sum query, and on failure a second attempt that sums the chunked
recursive calls (each with `try_to_chunkify=False`) and stores the total
under the key. -/
def das_get_events_of_runs (h : String → String) (w : DasWorld) (cache : Cache Int)
    (dataset : String) (runs : PyRuns) : Int × Cache Int × Nat :=
  if dataset = "" || runs.isEmptyB then (0, cache, 0)
  else
    let sruns := runs.normalize
    let key := events_of_runs_key h dataset runs
    match cacheGet cache key with
    | some v => (v, cache, 0)
    | none =>
      match w.sumQuery dataset sruns with
      | some ev => (ev, cacheSet cache key ev, 1)
      | none =>
        let folded := (chunkify sruns 50).foldl
          (fun acc chunk =>
            let r := das_get_events_of_runs_nochunk h w acc.2.1 dataset chunk
            (acc.1 + r.1, r.2.1, acc.2.2 + r.2.2))
          (0, cache, 1)
        (folded.1, cacheSet folded.2.1 key folded.1, folded.2.2)

/-! ## The two das_get_dataset_info variants
(run_3_data/make_json.py lines 342-377 and run_3_data/utils/das.py
lines 75-118)

A DAS JSON reply is a list of objects; each carries the name of the
service that produced it (`obj["das"]["services"][0]`) and a record
(`obj["dataset"][0]`) whose fields are all optional, exactly like keys
of a Python dict.  Both variants scan the reply, keeping the last
record delivered by the `dbs3:filesummaries` service and the last
record delivered by the `dbs3:dataset_info` service (missing services
leave the corresponding record empty). -/

structure DasRecord where
  name : Option String
  status : Option String
  nevents : Option Int
  nfiles : Option Int
deriving DecidableEq, Repr

/-- The empty record, standing for the `{}` both variants start from. -/
def DasRecord.empty : DasRecord := ⟨none, none, none, none⟩

structure DasObj where
  service : String
  dataset : DasRecord
deriving DecidableEq, Repr

/-- Constant FILE_SUMMARY of run_3_data/make_json.py line 38. -/
def FILE_SUMMARY : String := "dbs3:filesummaries"

/-- Constant DATASET_INFO of run_3_data/make_json.py line 39. -/
def DATASET_INFO : String := "dbs3:dataset_info"

/-- The extraction loop shared verbatim by both variants
(run_3_data/make_json.py lines 365-371, run_3_data/utils/das.py
lines 97-103). -/
def extract_summary_and_info (reply : List DasObj) : DasRecord × DasRecord :=
  reply.foldl
    (fun acc obj =>
      if obj.service = FILE_SUMMARY then (obj.dataset, acc.2)
      else if obj.service = DATASET_INFO then (acc.1, obj.dataset)
      else acc)
    (DasRecord.empty, DasRecord.empty)

/-- Python membership test `dataset_info.get("status") in ("PRODUCTION",
"VALID")`. -/
def status_accepted (di : DasRecord) : Prop :=
  di.status = some "PRODUCTION" ∨ di.status = some "VALID"

instance (di : DasRecord) : Decidable (status_accepted di) := by
  unfold status_accepted; infer_instance

/-- das_get_dataset_info from run_3_data/make_json.py lines 342-377.
The guard is `dataset_info.get("status") in ("PRODUCTION", "VALID") and
file_summary.get("nfiles") > 0`; when the status test passes but the
file summary has no `nfiles` key, `file_summary.get("nfiles")` is `None`
and `None > 0` raises TypeError in Python 3.  A rejected reply returns
`none`. -/
def das_get_dataset_info (reply : List DasObj) :
    Except PyErr (Option (DasRecord × DasRecord)) :=
  let fs := (extract_summary_and_info reply).1
  let di := (extract_summary_and_info reply).2
  if status_accepted di then
    match fs.nfiles with
    | none => .error .typeError
    | some n => if n > 0 then .ok (some (fs, di)) else .ok none
  else .ok none

/-- das_get_dataset_info from run_3_data/utils/das.py lines 75-118.  The
guard reads `nfiles` with default -2, and a rejected reply raises
ValueError. -/
def das_get_dataset_info_utils (reply : List DasObj) :
    Except PyErr (DasRecord × DasRecord) :=
  let fs := (extract_summary_and_info reply).1
  let di := (extract_summary_and_info reply).2
  let dataset_files := fs.nfiles.getD (-2)
  if status_accepted di ∧ dataset_files > 0 then .ok (fs, di)
  else .error .valueError

/-! ## Dataset name parsing
(run_3_data/schemas/dataset.py lines 38-153, class DatasetMetadata)

The three fixed regular expressions

  ATTRIBUTE_REGEX = ^/(\w*)/(Run[0-9]\x7b4\x7d[A-Z])\x7b1\x7d-(\w*)-(v[0-9]\x7b1,2\x7d)/([A-Z]*)$
  SUBVERSION_REGEX = ^(\w*)_(v[0-9]\x7b1,2\x7d)$
  RAW_REGEX = ^/(\w*)/(Run[0-9]\x7b4\x7d[A-Z])\x7b1\x7d-(v[0-9]\x7b1,2\x7d)/(RAW)$

are embedded as hand rolled matchers over the character list of the
name.  Because a word character is never `/` or `-`, the greedy `\w*`
groups can only match the maximal word-character run in front of the
following literal, so no backtracking across these groups is possible
and the matchers below are deterministic renditions of the (anchored)
regex semantics.  The anchors behave as in Python without re.M: `^`
matches only at the start of the string, and `$` matches at the end of
the string or immediately before a single newline that ends the string,
so every matcher accepts the remainder `[]` or a lone trailing newline
at its end anchor (none of the character classes involved contains a
newline, so a newline can only survive as that final leftover).  For
`v[0-9]\x7b1,2\x7d` the following token is never a digit (`/`, `$`),
hence the match succeeds exactly when the maximal digit run after the
`v` has length 1 or 2.  In SUBVERSION_REGEX the greedy `(\w*)` takes
the longest prefix whose remainder is an underscore followed by a
version tail; since a version tail contains no underscore, that is the
rightmost underscore with a well formed tail.  Python's `\w` is
modelled over the ASCII range (dataset names in this repository are
ASCII). -/

/-- Python regex word character (ASCII range). -/
def isWordChar (c : Char) : Bool :=
  ('a' ≤ c && c ≤ 'z') || ('A' ≤ c && c ≤ 'Z') || ('0' ≤ c && c ≤ '9') || c == '_'

/-- Character class `[A-Z]`. -/
def isUpperAZ (c : Char) : Bool := 'A' ≤ c && c ≤ 'Z'

/-- Consume one expected literal character. -/
def litChar (c : Char) : List Char → Option (List Char)
  | [] => none
  | x :: xs => if x = c then some xs else none

/-- Consume an expected sequence of literal characters. -/
def litStr : List Char → List Char → Option (List Char)
  | [], l => some l
  | c :: cs, l =>
    match litChar c l with
    | none => none
    | some r => litStr cs r

/-- Match the era group `(Run[0-9]\x7b4\x7d[A-Z])\x7b1\x7d`, returning the
matched text and the rest. -/
def parseEra (l : List Char) : Option (List Char × List Char) :=
  match litStr ['R', 'u', 'n'] l with
  | none => none
  | some r =>
    match r with
    | d1 :: d2 :: d3 :: d4 :: u :: rest =>
      if d1.isDigit && d2.isDigit && d3.isDigit && d4.isDigit && isUpperAZ u then
        some (['R', 'u', 'n', d1, d2, d3, d4, u], rest)
      else none
    | _ => none

/-- Match the version group `(v[0-9]\x7b1,2\x7d)`, returning the matched
text and the rest. -/
def parseVersion (l : List Char) : Option (List Char × List Char) :=
  match litChar 'v' l with
  | none => none
  | some r =>
    if (r.takeWhile Char.isDigit).length = 1 ∨ (r.takeWhile Char.isDigit).length = 2 then
      some ('v' :: r.takeWhile Char.isDigit, r.dropWhile Char.isDigit)
    else none

/-- Groups captured by RAW_REGEX (the fourth group is the literal RAW). -/
structure RawGroups where
  primary_dataset : List Char
  era : List Char
  version : List Char
deriving DecidableEq, Repr

/-- Full match of RAW_REGEX, run_3_data/schemas/dataset.py line 61. -/
def matchRaw (l : List Char) : Option RawGroups :=
  match litChar '/' l with
  | none => none
  | some r1 =>
    match litChar '/' (r1.dropWhile isWordChar) with
    | none => none
    | some r2 =>
      match parseEra r2 with
      | none => none
      | some (era, r3) =>
        match litChar '-' r3 with
        | none => none
        | some r4 =>
          match parseVersion r4 with
          | none => none
          | some (ver, r5) =>
            match litStr ['/', 'R', 'A', 'W'] r5 with
            | none => none
            | some r6 =>
              if r6 = [] ∨ r6 = ['\n'] then some ⟨r1.takeWhile isWordChar, era, ver⟩
              else none

/-- Groups captured by ATTRIBUTE_REGEX. -/
structure AttrGroups where
  primary_dataset : List Char
  era : List Char
  processing_string : List Char
  version : List Char
  datatier : List Char
deriving DecidableEq, Repr

/-- Full match of ATTRIBUTE_REGEX, run_3_data/schemas/dataset.py
line 59. -/
def matchAttr (l : List Char) : Option AttrGroups :=
  match litChar '/' l with
  | none => none
  | some r1 =>
    match litChar '/' (r1.dropWhile isWordChar) with
    | none => none
    | some r2 =>
      match parseEra r2 with
      | none => none
      | some (era, r3) =>
        match litChar '-' r3 with
        | none => none
        | some r4 =>
          match litChar '-' (r4.dropWhile isWordChar) with
          | none => none
          | some r5 =>
            match parseVersion r5 with
            | none => none
            | some (ver, r6) =>
              match litChar '/' r6 with
              | none => none
              | some r7 =>
                if r7.dropWhile isUpperAZ = [] ∨ r7.dropWhile isUpperAZ = ['\n'] then
                  some ⟨r1.takeWhile isWordChar, era, r4.takeWhile isWordChar, ver,
                        r7.takeWhile isUpperAZ⟩
                else none

/-- Whether a character list is exactly a version tail `v[0-9]\x7b1,2\x7d`
followed by the `$` anchor, which also tolerates one trailing newline.
(The processing strings this is applied to are `\w*` groups and so can
never actually contain a newline.) -/
def tailIsVersion : List Char → Bool
  | 'v' :: rest =>
    (decide ((rest.takeWhile Char.isDigit).length = 1) ||
      decide ((rest.takeWhile Char.isDigit).length = 2)) &&
    (decide (rest.dropWhile Char.isDigit = []) ||
      decide (rest.dropWhile Char.isDigit = ['\n']))
  | _ => false

/-- Full match of SUBVERSION_REGEX: returns the `(\w*)` prefix and the
`(v[0-9]\x7b1,2\x7d)` tail of the rightmost underscore split with a well
formed tail (the split Python's greedy `(\w*)_` backtracking lands on). -/
def subversionSplit : List Char → Option (List Char × List Char)
  | [] => none
  | c :: rest =>
    match subversionSplit rest with
    | some (p, v) => if isWordChar c then some (c :: p, v) else none
    | none =>
      if c == '_' && tailIsVersion rest then
        some ([], rest.takeWhile (fun ch => !(ch == '\n')))
      else none

/-- The attributes of class DatasetMetadata (run_3_data/schemas/dataset.py
lines 38-153).  The `year` attribute is only assigned inside the two
successful build branches in the source; here it defaults to the empty
string for unparsed names. -/
structure DatasetMetadata where
  full_name : String
  primary_dataset : String
  era : String
  year : String
  processing_string : String
  filtered_ps : String
  version : String
  datatier : String
  valid : Bool
deriving DecidableEq, Repr

/-- DatasetMetadata construction: `__init__` plus `__build` /
`__build_raw` / `__build_non_raw` / `__check_ps`
(run_3_data/schemas/dataset.py lines 66-141).  The RAW regex is tried
first; otherwise the attribute regex, whose version field may then be
overwritten by a subversion found inside the processing string. -/
def DatasetMetadata.build (name : String) : DatasetMetadata :=
  match matchRaw name.data with
  | some g =>
    { full_name := name
      primary_dataset := ⟨g.primary_dataset⟩
      era := ⟨g.era⟩
      year := ⟨(g.era.drop 3).dropLast⟩
      processing_string := ""
      filtered_ps := ""
      version := ⟨g.version⟩
      datatier := "RAW"
      valid := true }
  | none =>
    match matchAttr name.data with
    | none =>
      { full_name := name, primary_dataset := "", era := "", year := ""
        processing_string := "", filtered_ps := "", version := "", datatier := ""
        valid := false }
    | some g =>
      match subversionSplit g.processing_string with
      | none =>
        { full_name := name
          primary_dataset := ⟨g.primary_dataset⟩
          era := ⟨g.era⟩
          year := ⟨(g.era.drop 3).dropLast⟩
          processing_string := ⟨g.processing_string⟩
          filtered_ps := ""
          version := ⟨g.version⟩
          datatier := ⟨g.datatier⟩
          valid := true }
      | some (p, v) =>
        { full_name := name
          primary_dataset := ⟨g.primary_dataset⟩
          era := ⟨g.era⟩
          year := ⟨(g.era.drop 3).dropLast⟩
          processing_string := ⟨g.processing_string⟩
          filtered_ps := ⟨p⟩
          version := ⟨v⟩
          datatier := ⟨g.datatier⟩
          valid := true }

/-! ## Grouping children datasets into chains
(run_3_data/utils/das.py lines 121-171, group_as_child_dataset, and
run_3_data/schemas/dataset.py lines 156-222, class ChildDataset)

`group_as_child_dataset` sorts the children by data tier, groups them by
(processing string, version) preserving first-seen key order (a Python
dict), and reduces each group to a linked chain: the first member
becomes the parent, and each further member is appended to the `output`
list of the previously appended node (`reduced`), which is always the
deepest node of the chain built so far.  The pure rendition of that loop
is `chain_of_group`.  The guard `reduced.output != []` then inspects the
deepest node and raises ValueError when its output list is non empty; an
empty group would make `reduced` be `None` and raise AttributeError at
that same line. -/

inductive ChildDataset where
  | mk (metadata : DatasetMetadata) (events : Int) (runs : List Int) (dstype : String)
       (campaign : String) (output : List ChildDataset) (prepid : Option String)
       (workflow : Option String)

def ChildDataset.metadata : ChildDataset → DatasetMetadata
  | .mk m _ _ _ _ _ _ _ => m

def ChildDataset.output : ChildDataset → List ChildDataset
  | .mk _ _ _ _ _ out _ _ => out

/-- ChildDataset `__init__` with only the metadata argument, as built by
the reduction loop (`ChildDataset(metadata=child)`): events -1, empty
runs, empty type and campaign, fresh empty output list, no prepid and no
workflow (run_3_data/schemas/dataset.py lines 178-196). -/
def ChildDataset.ofMetadata (m : DatasetMetadata) : ChildDataset :=
  .mk m (-1) [] "" "" [] none none

/-- The reduction loop of group_as_child_dataset
(run_3_data/utils/das.py lines 149-162) on one group: the state of the
loop after consuming the group is a linked chain whose head is `parent`
and whose deepest node is `reduced`; appending a member adds one node at
the bottom of the chain. -/
def chain_of_group : DatasetMetadata → List DatasetMetadata → ChildDataset
  | m, [] => ChildDataset.ofMetadata m
  | m, r :: rs => .mk m (-1) [] "" "" [chain_of_group r rs] none none

/-- The node the loop variable `reduced` aliases after the loop: the
node reached from the head by following first children; on a chain this
is the unique deepest node. -/
def ChildDataset.lastNode : ChildDataset → ChildDataset
  | .mk m e r t c [] p w => .mk m e r t c [] p w
  | .mk _ _ _ _ _ (child :: _) _ _ => child.lastNode

/-- Whether a dataset tree is a linked chain: every node except the last
has exactly one child and the last has none. -/
def ChildDataset.isChain : ChildDataset → Bool
  | .mk _ _ _ _ _ [] _ _ => true
  | .mk _ _ _ _ _ [c] _ _ => c.isChain
  | .mk _ _ _ _ _ (_ :: _ :: _) _ _ => false

/-- Number of nodes along the first-child spine of a tree (on a chain,
its length). -/
def ChildDataset.spineLen : ChildDataset → Nat
  | .mk _ _ _ _ _ [] _ _ => 1
  | .mk _ _ _ _ _ (c :: _) _ _ => 1 + c.spineLen

/-- The `groups[group_key] = groups.get(group_key, []) + [child]` update
(run_3_data/utils/das.py line 141) on an insertion ordered association
list, which is how a Python dict iterates. -/
def add_to_groups (gs : List ((String × String) × List DatasetMetadata))
    (k : String × String) (m : DatasetMetadata) :
    List ((String × String) × List DatasetMetadata) :=
  match gs with
  | [] => [(k, [m])]
  | (k', l) :: rest =>
    if k' = k then (k', l ++ [m]) :: rest else (k', l) :: add_to_groups rest k m

/-- The sorting and grouping phase of group_as_child_dataset
(run_3_data/utils/das.py lines 135-141): sort by data tier, then group
by (processing string, version). -/
def group_children (children : List DatasetMetadata) :
    List ((String × String) × List DatasetMetadata) :=
  (children.mergeSort (fun a b => decide (a.datatier ≤ b.datatier))).foldl
    (fun gs c => add_to_groups gs (c.processing_string, c.version) c) []

/-- The cast-and-reduce loop of group_as_child_dataset
(run_3_data/utils/das.py lines 149-167) over the groups in insertion
order, with the two possible exceptions made explicit. -/
def reduce_groups :
    List ((String × String) × List DatasetMetadata) → Except String (List ChildDataset)
  | [] => .ok []
  | (_, g) :: rest =>
    match g with
    | [] => .error "AttributeError: NoneType object has no attribute output"
    | m :: ms =>
      let parent := chain_of_group m ms
      if parent.lastNode.output.isEmpty then
        match reduce_groups rest with
        | .ok l => .ok (parent :: l)
        | .error e => .error e
      else .error "The latest child appended should not have references to any children"

/-- group_as_child_dataset (run_3_data/utils/das.py lines 121-171). -/
def group_as_child_dataset (children : List DatasetMetadata) :
    Except String (List ChildDataset) :=
  reduce_groups (group_children children)

/-! ## The recursive dataset hierarchy resolution
(rereco_ul/make_json.py lines 208-255 and run_3_data/make_json.py
lines 248-296, get_prepid_and_dataset — the two copies are identical;
run_3_data/make_json.py lines 299-507, parse_inject_processing_string,
get_dataset_version, get_dataset_steps and get_dataset_info)

The items produced by both recursions share one dict shape; it is
embedded as the nested inductive `DsItem` (`dstype` is the `type` key).
External services are oracle fields of `DasWorld` and `StatsWorld`.
Inside these recursions the cached wrappers das_get_events and
das_get_runs are used through their pure views das_get_events_utils and
das_get_runs_utils: with a fixed oracle the module caches only memoize
the very same value (the cache behaviour itself is modelled and settled
separately), and the utils variants are exactly the cache free
computation of the make_json variants. -/

structure QueryWorld where
  /-- Oracle for `dasgoclient --query="dataset=Q | grep dataset.name"`:
  the matching dataset names, one per non blank line. -/
  nameQuery : String → List String
  /-- Oracle for `dasgoclient --query=DATASET --json` parsed with
  `json.loads`: the DAS reply objects. -/
  jsonQuery : String → List DasObj

/-- One ReqMgr2 workflow as used by get_prepid_and_dataset: the scalar
keys it reads plus the `Datasets` dict (name to Type) of the last entry
of `EventNumberHistory` (the source indexes `EventNumberHistory[-1]`;
an empty history would raise IndexError). -/
structure Workflow where
  PrepID : String
  RequestName : String
  ProcessingString : String
  RequestType : String
  Datasets : List (String × String)

/-- The year configuration as consumed by the recursions:
`year_dict['campaigns'][datatier]` is an ordered mapping from campaign
name to its list of processing string tags, modelled as a total map
from data tier (the configuration files define every tier the scripts
pass in; a missing key would raise KeyError in the source). -/
structure YearDict where
  campaigns : String → List (String × List String)

structure StatsWorld where
  /-- Oracle for `stats.get_input_dataset(input_dataset)`. -/
  inputWorkflows : String → List Workflow

/-- get_workflows_for_input (rereco_ul/make_json.py lines 196-199):
drops resubmission and dqmharvest workflows. -/
def get_workflows_for_input (sw : StatsWorld) (input_dataset : String) : List Workflow :=
  (sw.inputWorkflows input_dataset).filter
    (fun w => !(w.RequestType.toLower == "resubmission" || w.RequestType.toLower == "dqmharvest"))

/-- The result item dict shared by get_prepid_and_dataset and
get_dataset_steps: dataset, campaign, type, prepid, runs, events,
output, workflow, processing_string. -/
inductive DsItem where
  | mk (dataset : String) (campaign : String) (dstype : String) (prepid : Option String)
       (runs : List Int) (events : Int) (output : List DsItem) (workflow : Option String)
       (processing_string : String)

def DsItem.dataset : DsItem → String
  | .mk ds _ _ _ _ _ _ _ _ => ds

def DsItem.output : DsItem → List DsItem
  | .mk _ _ _ _ _ _ out _ _ => out

mutual

/-- Nesting depth of an item through its `output` lists: the length of
the longest item chain starting at this item. -/
def DsItem.depth : DsItem → Nat
  | .mk _ _ _ _ _ _ out _ _ => 1 + DsItem.depthList out

/-- Largest nesting depth of any item of a list. -/
def DsItem.depthList : List DsItem → Nat
  | [] => 0
  | i :: rest => max i.depth (DsItem.depthList rest)

end

/-- A fullmatch pattern made of literal segments with `.*` between
consecutive segments, anchored at both ends: the compiled form of the
blacklist globs after `x.replace('*', '.*')`
(run_3_data/make_json.py lines 43-59, make_regex_matcher). -/
def patTail : List (List Char) → List Char → Bool
  | [], l => l.isEmpty
  | s :: rest, l =>
    (List.range (l.length + 1)).any (fun i =>
      ((l.drop i).take s.length == s) && patTail rest ((l.drop i).drop s.length))
termination_by segs _ => segs.length

/-- Fullmatch of a segment pattern: the first segment is anchored at the
start, then the remaining segments follow arbitrary gaps, with the last
segment anchored at the end by `patTail`. -/
def patMatch (segs : List (List Char)) (l : List Char) : Bool :=
  match segs with
  | [] => l.isEmpty
  | s :: rest => ((l.take s.length == s) && patTail rest (l.drop s.length))

/-- Segments of the three dataset blacklist patterns
`/*/*DQMresub*/*AOD`, `/*/*EcalRecovery*/*AOD`, `/*/*WMass*/*AOD`
(run_3_data/make_json.py lines 20-22) after the `*` to `.*`
replacement. -/
def dataset_blacklist : List (List (List Char)) :=
  [["/".data, "/".data, "DQMresub".data, "/".data, "AOD".data],
   ["/".data, "/".data, "EcalRecovery".data, "/".data, "AOD".data],
   ["/".data, "/".data, "WMass".data, "/".data, "AOD".data]]

/-- is_dataset_in_blacklist (run_3_data/make_json.py lines 62-70). -/
def is_dataset_in_blacklist (dataset_name : String) : Bool :=
  dataset_blacklist.any (fun p => patMatch p dataset_name.data)

/-- is_campaign_in_blacklist (run_3_data/make_json.py lines 76-84) with
the single pattern `NanoAODv6`, which contains no `*`. -/
def is_campaign_in_blacklist (campaign : String) : Bool :=
  [["NanoAODv6".data]].any (fun p => patMatch p campaign.data)

/-- The campaign resolution loop of get_prepid_and_dataset
(rereco_ul/make_json.py lines 232-236): first campaign whose tag list
contains the processing string, default `<other>`. -/
def find_campaign (camps : List (String × List String)) (ps : String) : String :=
  match camps with
  | [] => "<other>"
  | (name, tags) :: rest => if ps ∈ tags then name else find_campaign rest ps

/-- The data tier of a dataset name, `dataset_name.split('/')[-1]`. -/
def ds_datatier_of (name : String) : String := (name.splitOn "/").getLastD ""

/-- get_prepid_and_dataset (rereco_ul/make_json.py lines 208-255,
identical in run_3_data/make_json.py lines 248-296): for each workflow
and each PRODUCTION or VALID dataset of its latest event number history
whose tier is the head of `datatiers`, after the dedup and blacklist
guards an item is appended whose `output` is the concatenation of the
recursion on `[workflow]` and the recursion on the workflows that take
the dataset as input, both with the tail of `datatiers`.  An empty
`datatiers` returns the empty list. -/
def get_prepid_and_dataset (sw : StatsWorld) (w : DasWorld) :
    List Workflow → List String → YearDict → List DsItem
  | _, [], _ => []
  | workflows, dt :: rest, yd =>
    workflows.foldl
      (fun results wf =>
        wf.Datasets.foldl
          (fun results dsInfo =>
            if (dsInfo.2 = "PRODUCTION" ∨ dsInfo.2 = "VALID") ∧ ds_datatier_of dsInfo.1 = dt then
              if results.any (fun r => r.dataset == dsInfo.1) then results
              else if is_dataset_in_blacklist dsInfo.1 then results
              else
                let campaign := find_campaign (yd.campaigns dt) wf.ProcessingString
                if is_campaign_in_blacklist campaign then results
                else
                  results ++ [DsItem.mk dsInfo.1 campaign dsInfo.2 (some wf.PrepID)
                    (das_get_runs_utils w dsInfo.1)
                    (das_get_events_utils w dsInfo.1)
                    (get_prepid_and_dataset sw w [wf] rest yd ++
                      get_prepid_and_dataset sw w (get_workflows_for_input sw dsInfo.1) rest yd)
                    (some wf.RequestName) wf.ProcessingString]
            else results)
          results)
      []
termination_by _ tiers _ => tiers.length

/-- The alternation `(_v[0-9])?_v[0-9]|-v[0-9]` of dataset_version_regex
tried at one position, optional part first (greedy). -/
def tryVersionAt (l : List Char) : Option (List Char) :=
  match l with
  | '_' :: 'v' :: d1 :: '_' :: 'v' :: d2 :: _ =>
    if d1.isDigit && d2.isDigit then some ['_', 'v', d1, '_', 'v', d2]
    else if d1.isDigit then some ['_', 'v', d1]
    else none
  | '_' :: 'v' :: d :: _ => if d.isDigit then some ['_', 'v', d] else none
  | '-' :: 'v' :: d :: _ => if d.isDigit then some ['-', 'v', d] else none
  | _ => none

/-- dataset_version_regex.search: leftmost match of the alternation
(run_3_data/make_json.py line 35). -/
def dataset_version_search : List Char → Option (List Char)
  | [] => none
  | c :: rest =>
    match tryVersionAt (c :: rest) with
    | some m => some m
    | none => dataset_version_search rest

/-- get_dataset_version (run_3_data/make_json.py lines 380-386): the
digit right after the first `v` of the matched text, or 0 when the regex
does not match. -/
def get_dataset_version (dataset_name : String) : Int :=
  match dataset_version_search dataset_name.data with
  | none => 0
  | some m =>
    match m.dropWhile (fun c => !(c == 'v')) with
    | _ :: d :: _ => ((d.toNat - '0'.toNat : Nat) : Int)
    | _ => 0

/-- The search of `(_v[0-9]-v[0-9]|-v[0-9])` right after the literal
dataset prefix inside a candidate name: the regex filter of
parse_inject_processing_string (run_3_data/make_json.py lines 333-337). -/
def versionTagHere : List Char → Bool
  | '_' :: 'v' :: d1 :: '-' :: 'v' :: d2 :: _ => d1.isDigit && d2.isDigit
  | '-' :: 'v' :: d :: _ => d.isDigit
  | _ => false

/-- re.search of the final filter pattern inside a candidate dataset
name: some position where the literal prefix
`/primary/run_campaign-processing_str` is followed by a version tag. -/
def final_filter_search (primary_dataset run_campaign processing_str : String)
    (x : String) : Bool :=
  let L := ("/" ++ primary_dataset ++ "/" ++ run_campaign ++ "-" ++ processing_str).data
  (List.range (x.data.length + 1)).any (fun i =>
    ((x.data.drop i).take L.length == L) && versionTagHere ((x.data.drop i).drop L.length))

/-- parse_inject_processing_string (run_3_data/make_json.py
lines 299-339): build the wildcard query from the RAW dataset name, ask
DAS for matching names and keep those where the final filter regex
matches.  Token accesses `token[0]` and `token[1]` are total here (a
name without two slash separated tokens would raise IndexError in the
source). -/
def parse_inject_processing_string (qw : QueryWorld) (raw_dataset processing_str datatier : String) :
    List String :=
  let token := (raw_dataset.splitOn "/").filter (fun t => t ≠ "")
  let primary_dataset := token.getD 0 ""
  let run_campaign := ((token.getD 1 "").splitOn "-").getD 0 ""
  let dataset := "/" ++ primary_dataset ++ "/" ++ run_campaign ++ "-" ++ processing_str ++ "*/" ++ datatier
  (qw.nameQuery dataset).filter (final_filter_search primary_dataset run_campaign processing_str)

/-- The `for dataset_query in dataset_queries` loop of get_dataset_steps
(run_3_data/make_json.py lines 437-470) with its `break` on an invalid
dataset; the recursion on the tail of `datatiers` is abstracted as
`recur` and receives the reassigned `parent_dataset`.  The item reads
`dataset_info["name"]`, `dataset_info["status"]` and
`file_summary["nevents"]` with plain indexing, so a missing key raises
KeyError.  Returns the results together with the final value of the
`parent_dataset` variable, which the caller keeps for the following
campaigns. -/
def gds_queries (qw : QueryWorld) (w : DasWorld) (campaign ps : String)
    (recur : Option String → Except PyErr (List DsItem)) :
    List String → List DsItem → Option String → Except PyErr (List DsItem × Option String)
  | [], results, parent => .ok (results, parent)
  | q :: qs, results, parent =>
    match das_get_dataset_info (qw.jsonQuery q) with
    | .error e => .error e
    | .ok none => .ok (results, parent)
    | .ok (some (fs, di)) =>
      match di.name with
      | none => .error .keyError
      | some nm =>
        match di.status with
        | none => .error .keyError
        | some st =>
          match fs.nevents with
          | none => .error .keyError
          | some ev =>
            match recur (some q) with
            | .error e => .error e
            | .ok out =>
              gds_queries qw w campaign ps recur qs
                (results ++ [DsItem.mk nm campaign st none (das_get_runs_utils w q) ev out
                  none ps]) (some q)

/-- The `for campaign, processing_str_list in datatier_campaigns.items()`
loop of get_dataset_steps (run_3_data/make_json.py lines 418-470).  The
`processing_str_list[-1]` access is total here (an empty tag list in the
configuration would raise IndexError in the source).  The
`parent_dataset` variable is threaded across campaigns because the inner
loop reassigns the enclosing function's variable. -/
def gds_campaigns (qw : QueryWorld) (w : DasWorld) (dataset dt : String)
    (recur : Option String → Except PyErr (List DsItem)) :
    List (String × List String) → List DsItem → Option String → Except PyErr (List DsItem)
  | [], results, _ => .ok results
  | (campaign, psList) :: camps, results, parent =>
    let ps := psList.getLastD ""
    let queries := parse_inject_processing_string qw dataset ps dt
    let queries :=
      match parent with
      | some p => queries.filter (fun d => get_dataset_version d == get_dataset_version p)
      | none => queries
    match gds_queries qw w campaign ps recur queries results parent with
    | .error e => .error e
    | .ok (results', parent') => gds_campaigns qw w dataset dt recur camps results' parent'

/-- get_dataset_steps (run_3_data/make_json.py lines 389-472): base case
`.ok []` on an empty `datatiers`, otherwise the campaign loop for the
head tier, where every recursive call receives the tail of
`datatiers`. -/
def get_dataset_steps (qw : QueryWorld) (w : DasWorld) (yd : YearDict) :
    String → List String → Option String → Except PyErr (List DsItem)
  | _, [], _ => .ok []
  | dataset, dt :: rest, parent =>
    gds_campaigns qw w dataset dt (fun p => get_dataset_steps qw w yd dataset rest p)
      (yd.campaigns dt) [] parent
termination_by _ tiers _ => tiers.length

/-- The datatiers literal passed to get_dataset_steps at its only call
site (run_3_data/make_json.py line 498). -/
def raw_child_datatiers : List String := ["AOD", "MINIAOD", "NANOAOD"]

/-- The RAW item dict built by get_dataset_info
(run_3_data/make_json.py lines 499-506). -/
structure RawItem where
  dataset : String
  output : List DsItem
  events : Int
  twiki_runs : List Int
  year : String
  runs : List Int

/-- The pattern `Run([0-9]\x7b4\x7d)` of run_regex tried at one
position. -/
def tryRunAt : List Char → Option (List Char)
  | 'R' :: 'u' :: 'n' :: d1 :: d2 :: d3 :: d4 :: _ =>
    if d1.isDigit && d2.isDigit && d3.isDigit && d4.isDigit then
      some ['R', 'u', 'n', d1, d2, d3, d4]
    else none
  | _ => none

/-- run_regex.search (run_3_data/make_json.py line 31): leftmost match. -/
def run_regex_search : List Char → Option (List Char)
  | [] => none
  | c :: rest =>
    match tryRunAt (c :: rest) with
    | some m => some m
    | none => run_regex_search rest

/-- The pattern `([0-9]\x7b4\x7d)` of year_regex tried at one position. -/
def tryYearAt : List Char → Option (List Char)
  | d1 :: d2 :: d3 :: d4 :: _ =>
    if d1.isDigit && d2.isDigit && d3.isDigit && d4.isDigit then some [d1, d2, d3, d4]
    else none
  | _ => none

/-- year_regex.search (run_3_data/make_json.py line 32): leftmost match. -/
def year_regex_search : List Char → Option (List Char)
  | [] => none
  | c :: rest =>
    match tryYearAt (c :: rest) with
    | some m => some m
    | none => year_regex_search rest

/-- get_dataset_info (run_3_data/make_json.py lines 475-507): events and
runs of the RAW dataset, the year parsed from the name (subscripting a
failed regex search raises TypeError in the source), and the `output`
list produced by get_dataset_steps on `['AOD', 'MINIAOD', 'NANOAOD']`. -/
def get_dataset_info (qw : QueryWorld) (w : DasWorld) (yd : YearDict) (dataset : String) :
    Except PyErr RawItem :=
  match run_regex_search dataset.data with
  | none => .error .typeError
  | some run_name =>
    match year_regex_search run_name with
    | none => .error .typeError
    | some year =>
      match get_dataset_steps qw w yd dataset raw_child_datatiers none with
      | .error e => .error e
      | .ok aod_datasets =>
        .ok { dataset := dataset, output := aod_datasets,
              events := das_get_events_utils w dataset, twiki_runs := [],
              year := ⟨year⟩, runs := das_get_runs_utils w dataset }

/-! ## Supporting lemmas -/

theorem litChar_eq {c : Char} {l r : List Char} (h : litChar c l = some r) : l = c :: r := by
  match l with
  | [] => simp [litChar] at h
  | x :: xs =>
    simp only [litChar] at h
    split at h
    · cases h; simp_all
    · cases h

theorem litStr_eq {cs l r : List Char} (h : litStr cs l = some r) : l = cs ++ r := by
  induction cs generalizing l with
  | nil => simp [litStr] at h; simp [h]
  | cons c cs ih =>
    simp only [litStr] at h
    cases hc : litChar c l with
    | none => rw [hc] at h; cases h
    | some r' =>
      rw [hc] at h
      have := litChar_eq hc
      subst this
      simpa using ih h

theorem parseEra_eq {l e r : List Char} (h : parseEra l = some (e, r)) : l = e ++ r := by
  unfold parseEra at h
  split at h
  · cases h
  next r' heq =>
    have hl := litStr_eq heq
    split at h
    next d1 d2 d3 d4 u rest =>
      split at h
      · cases h; simp [hl]
      · cases h
    next => cases h

theorem parseVersion_eq {l v r : List Char} (h : parseVersion l = some (v, r)) : l = v ++ r := by
  unfold parseVersion at h
  split at h
  · cases h
  next r' heq =>
    have hl := litChar_eq heq
    split at h
    · cases h
      simp [hl, List.takeWhile_append_dropWhile]
    · cases h

theorem matchRaw_eq {l : List Char} {g : RawGroups} (h : matchRaw l = some g) :
    l = '/' :: (g.primary_dataset ++ '/' :: (g.era ++ '-' :: (g.version ++ ['/', 'R', 'A', 'W']))) ∨
    l = '/' :: (g.primary_dataset ++ '/' ::
      (g.era ++ '-' :: (g.version ++ ['/', 'R', 'A', 'W', '\n']))) := by
  unfold matchRaw at h
  split at h
  · cases h
  next r1 heq1 =>
    split at h
    · cases h
    next r2 heq2 =>
      split at h
      · cases h
      next era r3 heq3 =>
        split at h
        · cases h
        next r4 heq4 =>
          split at h
          · cases h
          next ver r5 heq5 =>
            split at h
            · cases h
            next r6 heq6 =>
              split at h
              next hnil =>
                cases h
                have e1 := litChar_eq heq1
                have e2 := litChar_eq heq2
                have e3 := parseEra_eq heq3
                have e4 := litChar_eq heq4
                have e5 := parseVersion_eq heq5
                have e6 := litStr_eq heq6
                subst e1
                rcases hnil with hnil | hnil
                · left
                  conv_lhs => rw [← List.takeWhile_append_dropWhile isWordChar r1]
                  rw [e2, e3, e4, e5, e6]
                  simp [hnil]
                · right
                  conv_lhs => rw [← List.takeWhile_append_dropWhile isWordChar r1]
                  rw [e2, e3, e4, e5, e6]
                  simp [hnil]
              next => cases h

theorem matchAttr_eq {l : List Char} {g : AttrGroups} (h : matchAttr l = some g) :
    l = '/' :: (g.primary_dataset ++ '/' :: (g.era ++ '-' :: (g.processing_string ++
      '-' :: (g.version ++ '/' :: g.datatier)))) ∨
    l = '/' :: (g.primary_dataset ++ '/' :: (g.era ++ '-' :: (g.processing_string ++
      '-' :: (g.version ++ '/' :: (g.datatier ++ ['\n']))))) := by
  unfold matchAttr at h
  split at h
  · cases h
  next r1 heq1 =>
    split at h
    · cases h
    next r2 heq2 =>
      split at h
      · cases h
      next era r3 heq3 =>
        split at h
        · cases h
        next r4 heq4 =>
          split at h
          · cases h
          next r5 heq5 =>
            split at h
            · cases h
            next ver r6 heq6 =>
              split at h
              · cases h
              next r7 heq7 =>
                split at h
                next hnil =>
                  cases h
                  have e1 := litChar_eq heq1
                  have e2 := litChar_eq heq2
                  have e3 := parseEra_eq heq3
                  have e4 := litChar_eq heq4
                  have e5 := litChar_eq heq5
                  have e6 := parseVersion_eq heq6
                  have e7 := litChar_eq heq7
                  subst e1
                  rcases hnil with hnil | hnil
                  · left
                    conv_lhs => rw [← List.takeWhile_append_dropWhile isWordChar r1]
                    rw [e2, e3, e4]
                    conv_lhs => rw [← List.takeWhile_append_dropWhile isWordChar r4]
                    rw [e5, e6, e7]
                    conv_lhs => rw [← List.takeWhile_append_dropWhile isUpperAZ r7]
                    simp [hnil]
                  · right
                    conv_lhs => rw [← List.takeWhile_append_dropWhile isWordChar r1]
                    rw [e2, e3, e4]
                    conv_lhs => rw [← List.takeWhile_append_dropWhile isWordChar r4]
                    rw [e5, e6, e7]
                    conv_lhs => rw [← List.takeWhile_append_dropWhile isUpperAZ r7]
                    simp [hnil]
                next => cases h

theorem cacheGet_cacheSet_self {β : Type} (c : Cache β) (k : String) (v : β) :
    cacheGet (cacheSet c k v) k = some v := by
  simp [cacheGet, cacheSet, List.find?]

theorem card_symmDiff_eq (s t : Finset Int) :
    (symmDiff s t).card = (s \ t).card + (t \ s).card := by
  rw [symmDiff_def, Finset.sup_eq_union, Finset.card_union_of_disjoint disjoint_sdiff_sdiff]

mutual

theorem get_output_rows_eq (item : TableItem) (path : List TableItem)
    (rows : List (List TableItem)) :
    get_output_rows item path rows = rows ++ (leafPaths item).map (fun p => path ++ p) := by
  match item with
  | .mk l out =>
    rw [get_output_rows, leafPaths]
    by_cases h : out.isEmpty
    · simp [h]
    · simp only [h, if_false]
      rw [get_output_rows_list_eq]
      simp [Function.comp]

theorem get_output_rows_list_eq (l : List TableItem) (path : List TableItem)
    (rows : List (List TableItem)) :
    get_output_rows_list l path rows = rows ++ (leafPathsList l).map (fun p => path ++ p) := by
  match l with
  | [] => simp [get_output_rows_list, leafPathsList]
  | i :: rest =>
    rw [get_output_rows_list, leafPathsList, get_output_rows_list_eq, get_output_rows_eq]
    simp

end

mutual

theorem leafPaths_length (item : TableItem) : (leafPaths item).length = leafCount item := by
  match item with
  | .mk l out =>
    rw [leafPaths, leafCount]
    by_cases h : out.isEmpty
    · simp [h]
    · rw [if_neg h, if_neg h, List.length_map]
      exact leafPathsList_length out

theorem leafPathsList_length (l : List TableItem) :
    (leafPathsList l).length = leafCountList l := by
  match l with
  | [] => simp [leafPathsList, leafCountList]
  | i :: rest =>
    rw [leafPathsList, leafCountList, List.length_append, leafPaths_length,
      leafPathsList_length]

end

theorem leafPaths_head (item : TableItem) :
    ∀ p ∈ leafPaths item, p.head? = some item := by
  match item with
  | .mk l out =>
    rw [leafPaths]
    by_cases h : out.isEmpty
    · simp [h]
    · simp only [h, if_false]
      intro p hp
      obtain ⟨q, _, rfl⟩ := List.mem_map.mp hp
      rfl

theorem pySorted_sorted (l : List Int) : List.Sorted (· ≤ ·) (pySorted l) := by
  have h := @List.sorted_mergeSort Int (fun a b : Int => decide (a ≤ b))
    (fun a b c hab hbc => by
      simp only [decide_eq_true_eq] at hab hbc ⊢
      exact le_trans hab hbc)
    (fun a b => by
      simp only [Bool.or_eq_true, decide_eq_true_eq]
      exact Int.le_total a b) l
  exact h.imp (fun hab => of_decide_eq_true hab)

theorem pySorted_eq_of_perm {l₁ l₂ : List Int} (h : l₁.Perm l₂) : pySorted l₁ = pySorted l₂ := by
  apply List.eq_of_perm_of_sorted ?_ (pySorted_sorted l₁) (pySorted_sorted l₂)
  exact ((l₁.mergeSort_perm _).trans h).trans (l₂.mergeSort_perm _).symm

theorem list_isEmpty_congr {a b : List Int} (hab : a.toFinset = b.toFinset) :
    a.isEmpty = b.isEmpty := by
  rcases a with _ | ⟨x, xs⟩ <;> rcases b with _ | ⟨y, ys⟩
  · rfl
  · exfalso
    simp only [List.toFinset_nil, List.toFinset_cons] at hab
    exact Finset.insert_ne_empty _ _ hab.symm
  · exfalso
    simp only [List.toFinset_nil, List.toFinset_cons] at hab
    exact Finset.insert_ne_empty _ _ hab
  · rfl

theorem PyRuns.isEmptyB_congr {r₁ r₂ : PyRuns} (hs : r₁.denotedSet = r₂.denotedSet) :
    r₁.isEmptyB = r₂.isEmptyB := by
  cases r₁ <;> cases r₂ <;>
    simp only [PyRuns.denotedSet] at hs <;>
    simp only [PyRuns.isEmptyB] <;>
    exact list_isEmpty_congr hs

theorem PyRuns.normalize_congr {r₁ r₂ : PyRuns} (h₁ : r₁.wellFormed) (h₂ : r₂.wellFormed)
    (hs : r₁.denotedSet = r₂.denotedSet) : r₁.normalize = r₂.normalize := by
  have key : ∀ (a b : List Int), a.Nodup → b.Nodup → a.toFinset = b.toFinset →
      pySorted a = pySorted b :=
    fun a b ha hb hab => pySorted_eq_of_perm (List.perm_of_nodup_nodup_toFinset_eq ha hb hab)
  cases r₁ with
  | list rs₁ =>
    cases r₂ with
    | list rs₂ => exact key _ _ h₁ h₂ hs
    | dict ks₂ =>
      rw [PyRuns.normalize, PyRuns.normalize, List.Nodup.dedup h₂]
      exact key _ _ h₁ h₂ hs
  | dict ks₁ =>
    cases r₂ with
    | list rs₂ =>
      rw [PyRuns.normalize, PyRuns.normalize, List.Nodup.dedup h₁]
      exact key _ _ h₁ h₂ hs
    | dict ks₂ =>
      rw [PyRuns.normalize, PyRuns.normalize, List.Nodup.dedup h₁, List.Nodup.dedup h₂]
      exact key _ _ h₁ h₂ hs

theorem events_of_runs_key_congr (h : String → String) (d : String) {r₁ r₂ : PyRuns}
    (h₁ : r₁.wellFormed) (h₂ : r₂.wellFormed) (hs : r₁.denotedSet = r₂.denotedSet) :
    events_of_runs_key h d r₁ = events_of_runs_key h d r₂ := by
  rw [events_of_runs_key, events_of_runs_key, PyRuns.normalize_congr h₁ h₂ hs]

theorem das_get_events_of_runs_stored (h : String → String) (w : DasWorld) (c : Cache Int)
    (d : String) (r : PyRuns) (hd : d ≠ "") (hr : r.isEmptyB = false) :
    cacheGet (das_get_events_of_runs h w c d r).2.1 (events_of_runs_key h d r) =
      some (das_get_events_of_runs h w c d r).1 := by
  unfold das_get_events_of_runs
  rw [if_neg (by simp [hd, hr])]
  cases hkey : cacheGet c (events_of_runs_key h d r) with
  | some v => simp [hkey]
  | none =>
    cases hq : w.sumQuery d r.normalize with
    | some ev => simp [hkey, hq, cacheGet_cacheSet_self]
    | none => simp [hkey, hq, cacheGet_cacheSet_self]

/-! ## Claims C5, C6, C7, C10 -/

/-- Claim C5, counterexample: with whitelist runs \x7b1, 2\x7d and
raw-intersect-DCS runs empty, the row field
`whitelist_and_raw_x_dcs_missing_runs` is 0 while the cardinality of
whitelist minus raw-intersect-DCS is 2, so the second triple of fields
does not satisfy the claimed equations with W as the whitelist and T as
the raw-intersect-DCS set: the code computes the missing field as the
cardinality of T minus W, not W minus T. -/
theorem claim_C5_counterexample :
    (whitelist_and_raw_x_dcs_fields {1, 2} ∅).missing_runs = 0 ∧
    ((({1, 2} : Finset Int)) \ (∅ : Finset Int)).card = 2 := by decide

/-- Claim C5 (amended): in both original-table scripts the
twiki-versus-whitelist triple satisfies missing = card (whitelist minus
twiki), surplus = card (twiki minus whitelist), and runs_diff = their
sum = card of the symmetric difference; the whitelist-versus-
raw-intersect-DCS triple satisfies the mirrored equations missing =
card (rawxdcs minus whitelist) and surplus = card (whitelist minus
rawxdcs), with runs_diff again the cardinality of the symmetric
difference. -/
theorem claim_C5 : ∀ T W R : Finset Int,
    ((twiki_and_whitelist_fields T W).missing_runs = (W \ T).card ∧
     (twiki_and_whitelist_fields T W).surplus_runs = (T \ W).card ∧
     (twiki_and_whitelist_fields T W).runs_diff = (symmDiff W T).card) ∧
    ((whitelist_and_raw_x_dcs_fields W R).missing_runs = (R \ W).card ∧
     (whitelist_and_raw_x_dcs_fields W R).surplus_runs = (W \ R).card ∧
     (whitelist_and_raw_x_dcs_fields W R).runs_diff = (symmDiff W R).card) ∧
    ((twiki_and_whitelist_x_raw_fields T W).missing_runs = (W \ T).card ∧
     (twiki_and_whitelist_x_raw_fields T W).surplus_runs = (T \ W).card ∧
     (twiki_and_whitelist_x_raw_fields T W).runs_diff = (symmDiff W T).card) ∧
    ((whitelist_x_raw_and_raw_x_dcs_fields W R).missing_runs = (R \ W).card ∧
     (whitelist_x_raw_and_raw_x_dcs_fields W R).surplus_runs = (W \ R).card ∧
     (whitelist_x_raw_and_raw_x_dcs_fields W R).runs_diff = (symmDiff W R).card) := by
  intro T W R
  simp [twiki_and_whitelist_fields, whitelist_and_raw_x_dcs_fields,
    twiki_and_whitelist_x_raw_fields, whitelist_x_raw_and_raw_x_dcs_fields,
    card_symmDiff_eq, Nat.add_comm]

/-- Claim C7, counterexample: run_3_data/make_json.py is a reporting
script of the repository that writes its JSON reports but no timestamp
file, so not every script writes a timestamp file. -/
theorem claim_C7_counterexample :
    run_3_data_make_json ∈ repository_scripts ∧
    writes_json_report run_3_data_make_json = true ∧
    writes_timestamp run_3_data_make_json = false := by decide

/-- Claim C7 (amended): every reporting script writes at least one JSON
report file, and every one of them except run_3_data/make_json.py and
rereco_ul/make_json.py additionally writes a timestamp file; those two
write only JSON reports. -/
theorem claim_C7 : ∀ s ∈ repository_scripts,
    writes_json_report s = true ∧
    writes_timestamp s =
      !(s.name == "run_3_data/make_json.py" || s.name == "rereco_ul/make_json.py") := by
  decide

/-- Witness for claim C7 at a concrete script. -/
theorem claim_C7_witness :
    writes_json_report transferor_stuckor_main = true ∧
    writes_timestamp transferor_stuckor_main =
      !(transferor_stuckor_main.name == "run_3_data/make_json.py" ||
        transferor_stuckor_main.name == "rereco_ul/make_json.py") :=
  claim_C7 transferor_stuckor_main (by decide)

/-- Claim C10: the wrappers return their defaults instead of raising:
das_get_events returns 0 on a falsy dataset and 0 on a failed query
without touching the cache (so a later identical call issues the query
again); das_get_runs returns its empty collection on a falsy dataset and
on failure, also leaving the cache untouched; the cache-free utils
variants behave the same way. -/
theorem claim_C10 :
    (∀ w c, das_get_events w c "" = (0, c, 0)) ∧
    (∀ w c d, d ≠ "" → cacheGet c d = none → w.eventsQuery d = none →
      das_get_events w c d = (0, c, 1)) ∧
    (∀ w c, das_get_runs w c "" = ([], c, 0)) ∧
    (∀ w c d, d ≠ "" → cacheGet c d = none → w.runsQuery d = none →
      das_get_runs w c d = ([], c, 1)) ∧
    (∀ w, das_get_runs_utils w "" = []) ∧
    (∀ w d, w.runsQuery d = none → das_get_runs_utils w d = []) ∧
    (∀ w, das_get_events_utils w "" = 0) ∧
    (∀ w d, w.eventsQuery d = none → das_get_events_utils w d = 0) := by
  refine ⟨?_, ?_, ?_, ?_, ?_, ?_, ?_, ?_⟩
  · intro w c; simp [das_get_events]
  · intro w c d hd hc hq; simp [das_get_events, hd, hc, hq]
  · intro w c; simp [das_get_runs]
  · intro w c d hd hc hq; simp [das_get_runs, hd, hc, hq]
  · intro w; simp [das_get_runs_utils]
  · intro w d hq
    unfold das_get_runs_utils
    by_cases hd : d = "" <;> simp [hd, hq]
  · intro w; simp [das_get_events_utils]
  · intro w d hq
    unfold das_get_events_utils
    by_cases hd : d = "" <;> simp [hd, hq]

/-- A DAS world whose every query fails. -/
def failingDasWorld : DasWorld :=
  ⟨fun _ => none, fun _ => none, fun _ _ => none⟩

/-- Witness for claim C10 on the all-failing world. -/
theorem claim_C10_witness :
    das_get_events failingDasWorld [] "x" = (0, [], 1) ∧
    das_get_runs failingDasWorld [] "x" = ([], [], 1) ∧
    das_get_runs_utils failingDasWorld "x" = [] ∧
    das_get_events_utils failingDasWorld "x" = 0 := by
  obtain ⟨h1, h2, h3, h4, h5, h6, h7, h8⟩ := claim_C10
  exact ⟨h2 _ _ _ (by decide) rfl rfl, h4 _ _ _ (by decide) rfl rfl,
    h6 _ _ rfl, h8 _ _ rfl⟩

/-- Claim C6: the cache key of das_get_events_of_runs depends only on
the dataset and the denoted set of runs (not on the order of the input
or on whether it came as a dict), and both das_get_events_of_runs and
das_get_events are memoizing: a repeated call with the same dataset and
run set returns the value stored by the first call, leaves the cache
unchanged and issues no external query. -/
theorem claim_C6 :
    (∀ (h : String → String) (d : String) (r₁ r₂ : PyRuns),
      r₁.wellFormed → r₂.wellFormed → r₁.denotedSet = r₂.denotedSet →
      events_of_runs_key h d r₁ = events_of_runs_key h d r₂) ∧
    (∀ (h : String → String) (w : DasWorld) (c : Cache Int) (d : String) (r₁ r₂ : PyRuns),
      r₁.wellFormed → r₂.wellFormed → r₁.denotedSet = r₂.denotedSet →
      d ≠ "" → r₁.isEmptyB = false →
      das_get_events_of_runs h w (das_get_events_of_runs h w c d r₁).2.1 d r₂ =
        ((das_get_events_of_runs h w c d r₁).1, (das_get_events_of_runs h w c d r₁).2.1, 0)) ∧
    (∀ (w : DasWorld) (c : Cache Int) (d : String), d ≠ "" →
      (cacheGet c d ≠ none ∨ w.eventsQuery d ≠ none) →
      das_get_events w (das_get_events w c d).2.1 d =
        ((das_get_events w c d).1, (das_get_events w c d).2.1, 0)) := by
  refine ⟨?_, ?_, ?_⟩
  · intro h d r₁ r₂ h₁ h₂ hs
    exact events_of_runs_key_congr h d h₁ h₂ hs
  · intro h w c d r₁ r₂ h₁ h₂ hs hd hne
    have hne₂ : r₂.isEmptyB = false := by
      rw [← PyRuns.isEmptyB_congr hs]; exact hne
    have hkey := events_of_runs_key_congr h d h₁ h₂ hs
    have stored := das_get_events_of_runs_stored h w c d r₁ hd hne
    generalize hres : das_get_events_of_runs h w c d r₁ = res at stored ⊢
    conv_lhs => rw [das_get_events_of_runs]
    rw [if_neg (by simp [hd, hne₂])]
    simp only [← hkey, stored]
  · intro w c d hd hcq
    rcases hc : cacheGet c d with _ | v
    · rcases hq : w.eventsQuery d with _ | r
      · rcases hcq with hcq | hcq
        · exact absurd hc hcq
        · exact absurd hq hcq
      · have h1 : das_get_events w c d = (r, cacheSet c d r, 1) := by
          simp [das_get_events, hd, hc, hq]
        rw [h1]
        simp [das_get_events, hd, cacheGet_cacheSet_self]
    · have h1 : das_get_events w c d = (v, c, 0) := by
        simp [das_get_events, hd, hc]
      rw [h1]
      simp [das_get_events, hd, hc]

/-- The identity stand-in for the abstract digest parameter. -/
def idHash : String → String := fun s => s

/-- A DAS world with successful constant answers. -/
def constDasWorld : DasWorld :=
  ⟨fun _ => some 7, fun _ => some [1, 2], fun _ _ => some 5⟩

/-- Witness for claim C6: a list in another order and a dict denote the
same run set, give the same key, and the second call is served from the
cache. -/
theorem claim_C6_witness :
    events_of_runs_key idHash "ds" (.list [2, 1]) = events_of_runs_key idHash "ds" (.dict [1, 2]) ∧
    das_get_events_of_runs idHash constDasWorld
        (das_get_events_of_runs idHash constDasWorld [] "ds" (.list [2, 1])).2.1 "ds" (.dict [1, 2]) =
      ((das_get_events_of_runs idHash constDasWorld [] "ds" (.list [2, 1])).1,
       (das_get_events_of_runs idHash constDasWorld [] "ds" (.list [2, 1])).2.1, 0) ∧
    das_get_events constDasWorld (das_get_events constDasWorld [] "d").2.1 "d" =
      ((das_get_events constDasWorld [] "d").1, (das_get_events constDasWorld [] "d").2.1, 0) := by
  obtain ⟨h1, h2, h3⟩ := claim_C6
  refine ⟨h1 _ _ _ _ (by decide) (by decide) (by decide),
    h2 _ _ _ _ _ _ (by decide) (by decide) (by decide) (by decide) (by decide),
    h3 _ _ _ (by decide) (Or.inr (by simp [constDasWorld]))⟩

/-! ## Claims C3 and C4 -/

/-- A DAS reply whose dataset info service reports a VALID status but
which contains no file summary object, so the extracted file summary has
no nfiles key. -/
def missing_nfiles_reply : List DasObj :=
  [⟨DATASET_INFO, { name := some "/a/Run2022A-v1/AOD", status := some "VALID",
                    nevents := none, nfiles := none }⟩]

/-- Claim C3, counterexample: on a reply with an accepted status but no
nfiles key, the make_json variant raises TypeError (Python compares
`None > 0`) instead of returning None, while the utils variant raises
ValueError; so it is not true that the make_json variant returns None on
every rejected input. -/
theorem claim_C3_counterexample :
    das_get_dataset_info missing_nfiles_reply = .error .typeError ∧
    das_get_dataset_info missing_nfiles_reply ≠ .ok none ∧
    das_get_dataset_info_utils missing_nfiles_reply = .error .valueError := by
  refine ⟨by decide, ?_, by decide⟩
  intro h
  have : Except.error PyErr.typeError =
      (Except.ok none : Except PyErr (Option (DasRecord × DasRecord))) := by
    rw [← h]; decide
  cases this

/-- Claim C3 (amended): the two das_get_dataset_info variants accept
exactly the same replies — those whose dataset info status is PRODUCTION
or VALID and whose file summary has nfiles greater than 0 — and return
the same (file summary, dataset info) pair on them.  On a rejected reply
whose file summary has an nfiles key, the make_json variant returns None
and the utils variant raises ValueError; when the nfiles key is missing,
the utils variant still raises ValueError while the make_json variant
raises TypeError if the status is accepted and returns None otherwise. -/
theorem claim_C3 : ∀ reply : List DasObj,
    (∀ p, das_get_dataset_info reply = .ok (some p) ↔
      das_get_dataset_info_utils reply = .ok p) ∧
    ((∃ p, das_get_dataset_info reply = .ok (some p)) ↔
      (status_accepted (extract_summary_and_info reply).2 ∧
       ∃ n, (extract_summary_and_info reply).1.nfiles = some n ∧ 0 < n)) ∧
    ((extract_summary_and_info reply).1.nfiles ≠ none →
      (das_get_dataset_info reply = .ok none ↔
        das_get_dataset_info_utils reply = .error .valueError)) ∧
    ((extract_summary_and_info reply).1.nfiles = none →
      status_accepted (extract_summary_and_info reply).2 →
      das_get_dataset_info reply = .error .typeError ∧
      das_get_dataset_info_utils reply = .error .valueError) ∧
    ((extract_summary_and_info reply).1.nfiles = none →
      ¬ status_accepted (extract_summary_and_info reply).2 →
      das_get_dataset_info reply = .ok none ∧
      das_get_dataset_info_utils reply = .error .valueError) := by
  intro reply
  unfold das_get_dataset_info das_get_dataset_info_utils
  by_cases hst : status_accepted (extract_summary_and_info reply).2
  · cases hn : (extract_summary_and_info reply).1.nfiles with
    | none => simp [hst, hn]
    | some n =>
      by_cases hpos : n > 0
      · simp [hst, hn, hpos]
      · simp [hst, hn, hpos]
  · cases hn : (extract_summary_and_info reply).1.nfiles with
    | none => simp [hst, hn]
    | some n => simp [hst, hn]

/-- A reply accepted by both variants. -/
def accepted_reply : List DasObj :=
  [⟨FILE_SUMMARY, { name := none, status := none, nevents := some 11, nfiles := some 2 }⟩,
   ⟨DATASET_INFO, { name := some "/a/Run2022A-v1/AOD", status := some "VALID",
                    nevents := none, nfiles := none }⟩]

/-- Witness for claim C3 at a concrete accepted reply. -/
theorem claim_C3_witness :
    (das_get_dataset_info accepted_reply =
      .ok (some ((extract_summary_and_info accepted_reply).1,
                 (extract_summary_and_info accepted_reply).2)) ↔
      das_get_dataset_info_utils accepted_reply =
        .ok ((extract_summary_and_info accepted_reply).1,
             (extract_summary_and_info accepted_reply).2)) ∧
    ((extract_summary_and_info accepted_reply).1.nfiles ≠ none →
      (das_get_dataset_info accepted_reply = .ok none ↔
        das_get_dataset_info_utils accepted_reply = .error .valueError)) := by
  obtain ⟨h1, _, h3, _, _⟩ := claim_C3 accepted_reply
  exact ⟨h1 _, h3⟩

/-- Claim C4, counterexample: Python's `$` also matches immediately
before a trailing newline, so the program accepts the name
`/A/Run2023C-PromptReco-v4/AOD` followed by a newline, sets valid to
True and keeps the newline in full_name — where the claimed reassembly
of the parsed components (here none of them is overwritten, so the
stored version is the version matched in the name) differs from
full_name by that newline.  So the original claim fails on names with a
trailing newline. -/
theorem claim_C4_counterexample :
    (DatasetMetadata.build "/A/Run2023C-PromptReco-v4/AOD\n").valid = true ∧
    (matchAttr "/A/Run2023C-PromptReco-v4/AOD\n".data).isSome = true ∧
    "/A/Run2023C-PromptReco-v4/AOD\n" ≠
      "/" ++ (DatasetMetadata.build "/A/Run2023C-PromptReco-v4/AOD\n").primary_dataset ++
      "/" ++ (DatasetMetadata.build "/A/Run2023C-PromptReco-v4/AOD\n").era ++ "-" ++
      (DatasetMetadata.build "/A/Run2023C-PromptReco-v4/AOD\n").processing_string ++ "-" ++
      (DatasetMetadata.build "/A/Run2023C-PromptReco-v4/AOD\n").version ++ "/" ++
      (DatasetMetadata.build "/A/Run2023C-PromptReco-v4/AOD\n").datatier := by
  decide

/-- Claim C4 (amended): dataset name parsing is a faithful decomposition
up to the trailing newline Python's `$` anchor tolerates.  For a name
matched by the RAW regex the stored components reassemble to the name as
`/primary/era-version/RAW`, exactly or followed by one newline; for a
name matched only by the attribute regex they reassemble as
`/primary/era-processing_string-version/datatier`, exactly or followed
by one newline, where the version is the group matched in the name (the
stored `version` attribute may later be overwritten from a subversion
inside the processing string); and a name rejected by both regexes is
invalid with all parsed fields left empty. -/
theorem claim_C4 : ∀ name : String,
    ((DatasetMetadata.build name).valid = true →
      (∀ g, matchRaw name.data = some g →
        name = "/" ++ (DatasetMetadata.build name).primary_dataset ++ "/" ++
          (DatasetMetadata.build name).era ++ "-" ++ (DatasetMetadata.build name).version ++
          "/RAW" ∨
        name = "/" ++ (DatasetMetadata.build name).primary_dataset ++ "/" ++
          (DatasetMetadata.build name).era ++ "-" ++ (DatasetMetadata.build name).version ++
          "/RAW" ++ "\n") ∧
      (matchRaw name.data = none →
        ∃ g, matchAttr name.data = some g ∧
          (name = "/" ++ (DatasetMetadata.build name).primary_dataset ++ "/" ++
            (DatasetMetadata.build name).era ++ "-" ++
            (DatasetMetadata.build name).processing_string ++ "-" ++ String.mk g.version ++
            "/" ++ (DatasetMetadata.build name).datatier ∨
           name = "/" ++ (DatasetMetadata.build name).primary_dataset ++ "/" ++
            (DatasetMetadata.build name).era ++ "-" ++
            (DatasetMetadata.build name).processing_string ++ "-" ++ String.mk g.version ++
            "/" ++ (DatasetMetadata.build name).datatier ++ "\n"))) ∧
    (matchRaw name.data = none → matchAttr name.data = none →
      (DatasetMetadata.build name).valid = false ∧
      (DatasetMetadata.build name).primary_dataset = "" ∧
      (DatasetMetadata.build name).era = "" ∧
      (DatasetMetadata.build name).processing_string = "" ∧
      (DatasetMetadata.build name).filtered_ps = "" ∧
      (DatasetMetadata.build name).version = "" ∧
      (DatasetMetadata.build name).datatier = "") := by
  intro name
  cases hraw : matchRaw name.data with
  | some g =>
    refine ⟨fun _ => ⟨?_, ?_⟩, ?_⟩
    · intro g' hg'
      cases hg'
      simp only [DatasetMetadata.build, hraw]
      rcases matchRaw_eq hraw with hdata | hdata
      · left
        apply String.ext
        rw [hdata]
        simp [String.data_append]
      · right
        apply String.ext
        rw [hdata]
        simp [String.data_append]
    · intro hnone
      cases hnone
    · intro hnone
      cases hnone
  | none =>
    cases hattr : matchAttr name.data with
    | some g =>
      refine ⟨fun _ => ⟨?_, ?_⟩, ?_⟩
      · intro g' hg'
        cases hg'
      · intro _
        refine ⟨g, rfl, ?_⟩
        simp only [DatasetMetadata.build, hraw, hattr]
        cases hsub : subversionSplit g.processing_string with
        | none =>
          rcases matchAttr_eq hattr with hdata | hdata
          · left
            apply String.ext
            rw [hdata]
            simp [String.data_append]
          · right
            apply String.ext
            rw [hdata]
            simp [String.data_append]
        | some pv =>
          rcases matchAttr_eq hattr with hdata | hdata
          · left
            apply String.ext
            rw [hdata]
            simp [String.data_append]
          · right
            apply String.ext
            rw [hdata]
            simp [String.data_append]
      · intro _ hnone
        cases hnone
    | none =>
      refine ⟨fun hvalid => ?_, ?_⟩
      · exfalso
        simp only [DatasetMetadata.build, hraw, hattr] at hvalid
        cases hvalid
      · intro _ _
        simp [DatasetMetadata.build, hraw, hattr]

/-- Witness for claim C4 at a concrete non-RAW name and a concrete
unparsable name. -/
theorem claim_C4_witness :
    (∃ g, matchAttr "/BTagMu/Run2023C-PromptReco-v4/AOD".data = some g ∧
      ("/BTagMu/Run2023C-PromptReco-v4/AOD" =
        "/" ++ (DatasetMetadata.build "/BTagMu/Run2023C-PromptReco-v4/AOD").primary_dataset ++
        "/" ++ (DatasetMetadata.build "/BTagMu/Run2023C-PromptReco-v4/AOD").era ++ "-" ++
        (DatasetMetadata.build "/BTagMu/Run2023C-PromptReco-v4/AOD").processing_string ++
        "-" ++ String.mk g.version ++ "/" ++
        (DatasetMetadata.build "/BTagMu/Run2023C-PromptReco-v4/AOD").datatier ∨
       "/BTagMu/Run2023C-PromptReco-v4/AOD" =
        "/" ++ (DatasetMetadata.build "/BTagMu/Run2023C-PromptReco-v4/AOD").primary_dataset ++
        "/" ++ (DatasetMetadata.build "/BTagMu/Run2023C-PromptReco-v4/AOD").era ++ "-" ++
        (DatasetMetadata.build "/BTagMu/Run2023C-PromptReco-v4/AOD").processing_string ++
        "-" ++ String.mk g.version ++ "/" ++
        (DatasetMetadata.build "/BTagMu/Run2023C-PromptReco-v4/AOD").datatier ++ "\n")) ∧
    (DatasetMetadata.build "not a dataset").valid = false := by
  constructor
  · exact (((claim_C4 "/BTagMu/Run2023C-PromptReco-v4/AOD").1 (by decide)).2 (by decide))
  · exact ((claim_C4 "not a dataset").2 (by decide) (by decide)).1

/-! ## Claims C8 and C9 -/

theorem foldl_preserves {α β : Type _} (P : α → Prop) (f : α → β → α)
    (hf : ∀ acc b, P acc → P (f acc b)) :
    ∀ (l : List β) (init : α), P init → P (l.foldl f init) := by
  intro l
  induction l with
  | nil => intro init h; exact h
  | cons b bs ih => intro init h; exact ih _ (hf init b h)

/-- Claim C8: get_output_rows on a root item with empty path and rows
produces exactly the root-to-leaf paths of the tree, one row per leaf
(so the number of rows equals the number of leaves), and every row
starts with the root item. -/
theorem claim_C8 : ∀ item : TableItem,
    get_output_rows item [] [] = leafPaths item ∧
    (get_output_rows item [] []).length = leafCount item ∧
    ∀ r ∈ get_output_rows item [] [], r.head? = some item := by
  intro item
  have h : get_output_rows item [] [] = leafPaths item := by
    rw [get_output_rows_eq item [] []]
    simp
  refine ⟨h, ?_, ?_⟩
  · rw [h, leafPaths_length]
  · rw [h]
    exact leafPaths_head item

/-- Witness for claim C8 at a two-leaf tree. -/
theorem claim_C8_witness :
    get_output_rows (.mk 1 [.mk 2 [], .mk 3 []]) [] [] =
      leafPaths (.mk 1 [.mk 2 [], .mk 3 []]) ∧
    [TableItem.mk 1 [.mk 2 [], .mk 3 []], TableItem.mk 2 []].head? =
      some (.mk 1 [.mk 2 [], .mk 3 []]) := by
  obtain ⟨h1, _, h3⟩ := claim_C8 (.mk 1 [.mk 2 [], .mk 3 []])
  refine ⟨h1, h3 _ ?_⟩
  rw [h1]
  simp [leafPaths, leafPathsList]

theorem chain_of_group_isChain (m : DatasetMetadata) (ms : List DatasetMetadata) :
    (chain_of_group m ms).isChain = true := by
  induction ms generalizing m with
  | nil => rfl
  | cons r rs ih => simp [chain_of_group, ChildDataset.isChain, ih r]

theorem chain_of_group_spineLen (m : DatasetMetadata) (ms : List DatasetMetadata) :
    (chain_of_group m ms).spineLen = 1 + ms.length := by
  induction ms generalizing m with
  | nil => rfl
  | cons r rs ih => simp [chain_of_group, ChildDataset.spineLen, ih r]; omega

theorem chain_of_group_lastNode (m : DatasetMetadata) (ms : List DatasetMetadata) :
    (chain_of_group m ms).lastNode.output = [] := by
  induction ms generalizing m with
  | nil => rfl
  | cons r rs ih => simp [chain_of_group, ChildDataset.lastNode, ih r]

theorem add_to_groups_nonempty :
    ∀ (gs : List ((String × String) × List DatasetMetadata)) (k : String × String)
      (m : DatasetMetadata), (∀ e ∈ gs, e.2 ≠ []) →
      ∀ e ∈ add_to_groups gs k m, e.2 ≠ [] := by
  intro gs
  induction gs with
  | nil =>
    intro k m _ e he
    simp only [add_to_groups, List.mem_singleton] at he
    subst he
    simp
  | cons g rest ih =>
    obtain ⟨k', l⟩ := g
    intro k m h e he
    rw [add_to_groups] at he
    by_cases hk : k' = k
    · rw [if_pos hk] at he
      rcases List.mem_cons.mp he with h1 | h1
      · subst h1
        simp
      · exact h _ (List.mem_cons_of_mem _ h1)
    · rw [if_neg hk] at he
      rcases List.mem_cons.mp he with h1 | h1
      · subst h1
        exact h _ (List.mem_cons_self _ _)
      · exact ih k m (fun e' he' => h e' (List.mem_cons_of_mem _ he')) _ h1

theorem group_children_nonempty (children : List DatasetMetadata) :
    ∀ e ∈ group_children children, e.2 ≠ [] := by
  rw [group_children]
  exact foldl_preserves (fun gs => ∀ e ∈ gs, e.2 ≠ [])
    (fun gs c => add_to_groups gs (c.processing_string, c.version) c)
    (fun acc c hacc => add_to_groups_nonempty acc _ c hacc)
    (children.mergeSort fun a b => decide (a.datatier ≤ b.datatier)) []
    (fun e he => absurd he (List.not_mem_nil e))

theorem reduce_groups_ok :
    ∀ gs : List ((String × String) × List DatasetMetadata), (∀ e ∈ gs, e.2 ≠ []) →
      ∃ l, reduce_groups gs = .ok l ∧
        List.Forall₂ (fun (c : ChildDataset) (e : (String × String) × List DatasetMetadata) =>
          c.isChain = true ∧ c.spineLen = e.2.length ∧ c.lastNode.output = []) l gs := by
  intro gs
  induction gs with
  | nil => exact fun _ => ⟨[], rfl, List.Forall₂.nil⟩
  | cons g rest ih =>
    obtain ⟨k, grp⟩ := g
    intro h
    rcases grp with _ | ⟨m, ms⟩
    · exact absurd rfl (h (k, []) (List.mem_cons_self _ _))
    · obtain ⟨l, hl, hf⟩ := ih (fun e he => h e (List.mem_cons_of_mem _ he))
      refine ⟨chain_of_group m ms :: l, ?_, ?_⟩
      · rw [reduce_groups]
        rw [if_pos (by simp [chain_of_group_lastNode])]
        rw [hl]
      · exact List.Forall₂.cons
          ⟨chain_of_group_isChain m ms,
           by rw [chain_of_group_spineLen]; simp; omega,
           chain_of_group_lastNode m ms⟩ hf

/-- Claim C9: group_as_child_dataset never reaches either exception
branch — for every input (in particular every non-empty one) it returns
normally — and its result is, group by group in insertion order, a
single linked chain per (processing string, version) group: every node
except the last has exactly one child, the last node (the one
`reduced` aliases, whose `output` the ValueError guard checks) has an
empty output list, and the chain length equals the group size. -/
theorem claim_C9 : ∀ children : List DatasetMetadata,
    ∃ l, group_as_child_dataset children = .ok l ∧
      List.Forall₂ (fun (c : ChildDataset) (e : (String × String) × List DatasetMetadata) =>
        c.isChain = true ∧ c.spineLen = e.2.length ∧ c.lastNode.output = [])
        l (group_children children) := by
  intro children
  rw [group_as_child_dataset]
  exact reduce_groups_ok _ (group_children_nonempty children)

/-! ## Claims C1 and C2 -/

theorem DsItem.depth_def (i : DsItem) : i.depth = 1 + DsItem.depthList i.output := by
  cases i
  simp [DsItem.depth, DsItem.output]

theorem DsItem.depth_pos (i : DsItem) : 1 ≤ i.depth := by
  cases i
  simp [DsItem.depth]

theorem DsItem.depthList_le {l : List DsItem} {n : Nat} (h : ∀ i ∈ l, i.depth ≤ n) :
    DsItem.depthList l ≤ n := by
  induction l with
  | nil => simp [DsItem.depthList]
  | cons i rest ih =>
    simp only [DsItem.depthList]
    exact max_le (h i (List.mem_cons_self _ _)) (ih fun j hj => h j (List.mem_cons_of_mem _ hj))

theorem DsItem.mem_le_depthList {l : List DsItem} (i : DsItem) (h : i ∈ l) :
    i.depth ≤ DsItem.depthList l := by
  induction l with
  | nil => cases h
  | cons j rest ih =>
    simp only [DsItem.depthList]
    rcases List.mem_cons.mp h with h1 | h1
    · subst h1; exact le_max_left _ _
    · exact le_trans (ih h1) (le_max_right _ _)

theorem DsItem.depthList_append (l1 l2 : List DsItem) :
    DsItem.depthList (l1 ++ l2) = max (DsItem.depthList l1) (DsItem.depthList l2) := by
  induction l1 with
  | nil => simp [DsItem.depthList]
  | cons i rest ih =>
    simp only [List.cons_append, DsItem.depthList, List.append_eq, ih, max_assoc]

theorem DsItem.output_empty_of_depth_le_one (i : DsItem) (h : i.depth ≤ 1) : i.output = [] := by
  cases i with
  | mk ds c t p r e out wf ps =>
    simp only [DsItem.depth] at h
    simp only [DsItem.output]
    cases out with
    | nil => rfl
    | cons j rest =>
      exfalso
      have hj : 1 ≤ j.depth := DsItem.depth_pos j
      have : j.depth ≤ DsItem.depthList (j :: rest) :=
        DsItem.mem_le_depthList j (List.mem_cons_self _ _)
      omega

theorem get_prepid_and_dataset_depth (sw : StatsWorld) (w : DasWorld) :
    ∀ (tiers : List String) (ws : List Workflow) (yd : YearDict),
      ∀ i ∈ get_prepid_and_dataset sw w ws tiers yd, i.depth ≤ tiers.length := by
  intro tiers
  induction tiers with
  | nil =>
    intro ws yd i hi
    simp only [get_prepid_and_dataset] at hi
    cases hi
  | cons dt rest ih =>
    intro ws yd i hi
    suffices h : ∀ j ∈ get_prepid_and_dataset sw w ws (dt :: rest) yd, j.depth ≤ rest.length + 1 by
      simpa using h i hi
    simp only [get_prepid_and_dataset]
    refine foldl_preserves (fun acc : List DsItem => ∀ j ∈ acc, j.depth ≤ rest.length + 1) _
      ?step ws [] ?init
    case init => intro j hj; cases hj
    case step =>
    intro acc wf hacc
    refine foldl_preserves (fun acc : List DsItem => ∀ j ∈ acc, j.depth ≤ rest.length + 1) _ ?_
      wf.Datasets acc hacc
    intro acc2 ds hacc2
    by_cases h1 : (ds.2 = "PRODUCTION" ∨ ds.2 = "VALID") ∧ ds_datatier_of ds.1 = dt
    · rw [if_pos h1]
      by_cases h2 : acc2.any (fun r => r.dataset == ds.1) = true
      · rw [if_pos h2]; exact hacc2
      · rw [if_neg h2]
        by_cases h3 : is_dataset_in_blacklist ds.1 = true
        · rw [if_pos h3]; exact hacc2
        · rw [if_neg h3]
          show ∀ j ∈ (if is_campaign_in_blacklist
              (find_campaign (yd.campaigns dt) wf.ProcessingString) = true then acc2
            else acc2 ++ [DsItem.mk ds.1
              (find_campaign (yd.campaigns dt) wf.ProcessingString) ds.2 (some wf.PrepID)
              (das_get_runs_utils w ds.1) (das_get_events_utils w ds.1)
              (get_prepid_and_dataset sw w [wf] rest yd ++
                get_prepid_and_dataset sw w (get_workflows_for_input sw ds.1) rest yd)
              (some wf.RequestName) wf.ProcessingString]), j.depth ≤ rest.length + 1
          by_cases h4 : is_campaign_in_blacklist
              (find_campaign (yd.campaigns dt) wf.ProcessingString) = true
          · rw [if_pos h4]; exact hacc2
          · rw [if_neg h4]
            intro j hj
            rcases List.mem_append.mp hj with hj | hj
            · exact hacc2 j hj
            · rw [List.mem_singleton] at hj
              subst hj
              have b1 : DsItem.depthList (get_prepid_and_dataset sw w [wf] rest yd) ≤
                  rest.length :=
                DsItem.depthList_le (fun x hx => ih [wf] yd x hx)
              have b2 : DsItem.depthList
                  (get_prepid_and_dataset sw w (get_workflows_for_input sw ds.1) rest yd) ≤
                  rest.length :=
                DsItem.depthList_le (fun x hx => ih _ yd x hx)
              simp only [DsItem.depth, DsItem.depthList_append]
              omega
    · rw [if_neg h1]; exact hacc2

theorem gds_queries_depth (qw : QueryWorld) (w : DasWorld) (campaign ps : String)
    (recur : Option String → Except PyErr (List DsItem)) (n : Nat)
    (hrec : ∀ p l, recur p = .ok l → DsItem.depthList l ≤ n) :
    ∀ (queries : List String) (results : List DsItem) (parent : Option String)
      (res : List DsItem) (par : Option String),
      (∀ i ∈ results, i.depth ≤ n + 1) →
      gds_queries qw w campaign ps recur queries results parent = .ok (res, par) →
      ∀ i ∈ res, i.depth ≤ n + 1 := by
  intro queries
  induction queries with
  | nil =>
    intro results parent res par hres h
    simp only [gds_queries] at h
    cases h
    exact hres
  | cons q qs ihq =>
    intro results parent res par hres h
    simp only [gds_queries] at h
    split at h
    · cases h
    · cases h
      exact hres
    next fs di _ =>
      split at h
      · cases h
      next nm _ =>
        split at h
        · cases h
        next st _ =>
          split at h
          · cases h
          next ev _ =>
            split at h
            · cases h
            next out hout =>
              refine ihq _ _ res par ?_ h
              intro j hj
              rcases List.mem_append.mp hj with hj | hj
              · exact hres j hj
              · rw [List.mem_singleton] at hj
                subst hj
                have b := hrec _ _ hout
                simp only [DsItem.depth]
                omega

theorem gds_campaigns_depth (qw : QueryWorld) (w : DasWorld) (dataset dt : String)
    (recur : Option String → Except PyErr (List DsItem)) (n : Nat)
    (hrec : ∀ p l, recur p = .ok l → DsItem.depthList l ≤ n) :
    ∀ (camps : List (String × List String)) (results : List DsItem) (parent : Option String)
      (res : List DsItem),
      (∀ i ∈ results, i.depth ≤ n + 1) →
      gds_campaigns qw w dataset dt recur camps results parent = .ok res →
      ∀ i ∈ res, i.depth ≤ n + 1 := by
  intro camps
  induction camps with
  | nil =>
    intro results parent res hres h
    simp only [gds_campaigns] at h
    cases h
    exact hres
  | cons c camps ihc =>
    obtain ⟨campaign, psList⟩ := c
    intro results parent res hres h
    simp only [gds_campaigns] at h
    split at h
    · cases h
    next results' parent' hq =>
      exact ihc results' parent' res
        (gds_queries_depth qw w campaign _ recur n hrec _ results parent results' parent'
          hres hq) h

theorem get_dataset_steps_depth (qw : QueryWorld) (w : DasWorld) (yd : YearDict) :
    ∀ (tiers : List String) (dataset : String) (parent : Option String) (l : List DsItem),
      get_dataset_steps qw w yd dataset tiers parent = .ok l →
      DsItem.depthList l ≤ tiers.length := by
  intro tiers
  induction tiers with
  | nil =>
    intro d p l h
    simp only [get_dataset_steps] at h
    cases h
    simp [DsItem.depthList]
  | cons dt rest ihs =>
    intro d p l h
    simp only [get_dataset_steps] at h
    have hall := gds_campaigns_depth qw w d dt
      (fun p' => get_dataset_steps qw w yd d rest p') rest.length
      (fun p' l' h' => ihs d p' l' h') (yd.campaigns dt) [] p l
      (by intro j hj; cases hj) h
    have := DsItem.depthList_le hall
    simpa using this

/-- Claim C1: the hierarchy recursion is depth bounded by the datatiers
list.  Both get_prepid_and_dataset and get_dataset_steps return the
empty list on an empty datatiers list, every recursive call is on the
tail (hence the nesting depth of the produced items never exceeds the
length of the datatiers list), and the datatiers list used at the call
site has length 3. -/
theorem claim_C1 :
    (∀ (sw : StatsWorld) (w : DasWorld) (ws : List Workflow) (yd : YearDict),
      get_prepid_and_dataset sw w ws [] yd = []) ∧
    (∀ (qw : QueryWorld) (w : DasWorld) (yd : YearDict) (d : String) (p : Option String),
      get_dataset_steps qw w yd d [] p = .ok []) ∧
    (∀ (sw : StatsWorld) (w : DasWorld) (tiers : List String) (ws : List Workflow)
      (yd : YearDict),
      DsItem.depthList (get_prepid_and_dataset sw w ws tiers yd) ≤ tiers.length) ∧
    (∀ (qw : QueryWorld) (w : DasWorld) (yd : YearDict) (d : String) (tiers : List String)
      (p : Option String) (l : List DsItem),
      get_dataset_steps qw w yd d tiers p = .ok l → DsItem.depthList l ≤ tiers.length) ∧
    raw_child_datatiers.length = 3 := by
  refine ⟨?_, ?_, ?_, ?_, rfl⟩
  · intro sw w ws yd
    simp only [get_prepid_and_dataset]
  · intro qw w yd d p
    simp only [get_dataset_steps]
  · intro sw w tiers ws yd
    exact DsItem.depthList_le (fun i hi => get_prepid_and_dataset_depth sw w tiers ws yd i hi)
  · intro qw w yd d tiers p l h
    exact get_dataset_steps_depth qw w yd tiers d p l h

/-- The empty year configuration. -/
def trivYearDict : YearDict := ⟨fun _ => []⟩

/-- A query world with no answers. -/
def trivQueryWorld : QueryWorld := ⟨fun _ => [], fun _ => []⟩

/-- Witness for claim C1: the depth bound applied at a concrete base
case call. -/
theorem claim_C1_witness : DsItem.depthList [] ≤ ([] : List String).length := by
  refine claim_C1.2.2.2.1 trivQueryWorld failingDasWorld trivYearDict "d" [] none [] ?_
  simp only [get_dataset_steps]

/-- Claim C2: every RAW item returned by get_dataset_info is a tree of
depth at most 4: one RAW level plus at most three output levels, and
every item three output levels down has an empty output list. -/
theorem claim_C2 : ∀ (qw : QueryWorld) (w : DasWorld) (yd : YearDict) (d : String)
    (item : RawItem), get_dataset_info qw w yd d = .ok item →
    1 + DsItem.depthList item.output ≤ 4 ∧
    (∀ a ∈ item.output, ∀ m ∈ a.output, ∀ nd ∈ m.output, nd.output = []) := by
  intro qw w yd d item h
  simp only [get_dataset_info] at h
  split at h
  · cases h
  next run_name hrun =>
    split at h
    · cases h
    next year hyear =>
      split at h
      · cases h
      next aod hsteps =>
        cases h
        have hd : DsItem.depthList aod ≤ 3 := by
          have := get_dataset_steps_depth qw w yd raw_child_datatiers d none aod hsteps
          simpa [raw_child_datatiers] using this
        constructor
        · simp only [RawItem.output]
          omega
        · simp only [RawItem.output]
          intro a ha m hm nd hnd
          have h1 : a.depth ≤ 3 := le_trans (DsItem.mem_le_depthList a ha) hd
          have h2 : m.depth ≤ 2 := by
            have hma := DsItem.mem_le_depthList m hm
            have hda := DsItem.depth_def a
            omega
          have h3 : nd.depth ≤ 1 := by
            have hmn := DsItem.mem_le_depthList nd hnd
            have hdm := DsItem.depth_def m
            omega
          exact DsItem.output_empty_of_depth_le_one nd h3

/-- Witness for claim C2 at a concrete RAW dataset with an empty
configuration. -/
theorem claim_C2_witness : 1 + DsItem.depthList [] ≤ 4 := by
  have hr : run_regex_search "Run2022A".data = some ['R', 'u', 'n', '2', '0', '2', '2'] := by
    decide
  have hy : year_regex_search ['R', 'u', 'n', '2', '0', '2', '2'] =
      some ['2', '0', '2', '2'] := by decide
  have hs : get_dataset_steps trivQueryWorld failingDasWorld trivYearDict "Run2022A"
      raw_child_datatiers none = .ok [] := by
    simp [get_dataset_steps, gds_campaigns, trivYearDict, raw_child_datatiers]
  have h := claim_C2 trivQueryWorld failingDasWorld trivYearDict "Run2022A"
    ⟨"Run2022A", [], 0, [], ⟨['2', '0', '2', '2']⟩, []⟩ ?_
  · exact h.1
  · simp only [get_dataset_info, hr, hy, hs]
    simp [das_get_events_utils, das_get_runs_utils, failingDasWorld]

end PdmVPages
